import Mathlib

/-! Smart-home ESP32 firmware: a verification development.

Shallow embedding of the firmware under `esp32/main` (command parser, LED colour
conversion, credential store on NVS, mode selection, provisioning and operational
controllers) together with theorems about it.

Conventions of the embedding

* A C string is the list of its characters before the terminating NUL; a pointer into a
  string is an offset (`Nat`), `NULL` is `none`.
* `uint32_t`/`uint8_t` values are `Nat` reduced modulo `2^32`/`2^8` where the C code
  converts; `long` is the 32-bit `long` of the ESP32 (ILP32).
* Calls to the actuator and to the recovery entry points are recorded as traces
  (lists of calls, oldest first).
* Library functions (`strstr`, `strchr`, `strtol`, `strncpy`, the ESP-IDF NVS API) are
  modelled after their documented behaviour.
-/

namespace SmartHome

/-! ## C library -/

/-- The NUL character that terminates a C string. -/
def NUL : Char := Char.ofNat 0

/-- The double-quote character. -/
def DQUOTE : Char := Char.ofNat 34

/-- The C string that starts at the beginning of a region of memory: the characters
before the first NUL. -/
def cstr (mem : List Char) : List Char :=
  mem.takeWhile (fun c => c ≠ NUL)

/-- Model of `strstr(haystack, needle)`: the offset of the first occurrence of `needle` in
`haystack`, `none` for `NULL`. -/
def strstr : List Char → List Char → Option Nat
  | [], needle => if needle = [] then some 0 else none
  | c :: cs, needle =>
    if needle.isPrefixOf (c :: cs) then some 0 else (strstr cs needle).map (· + 1)

/-- Model of `strchr(s, c)` for a character `c` other than NUL: the offset of the first
occurrence, `none` for `NULL`. -/
def strchr : List Char → Char → Option Nat
  | [], _ => none
  | d :: ds, c => if d = c then some 0 else (strchr ds c).map (· + 1)

/-- Model of `strdup`: a fresh copy of the string. Exhaustion of the heap is outside the
embedding, so the copy always exists. -/
def strdup (s : List Char) : Option (List Char) := some s

/-- Model of `strncpy(dst, src, n)` followed by `dst[n] = 0`, read back as a C string. -/
def strncpy (src : List Char) (n : Nat) : List Char := src.take n

/-- Model of `isspace` in the C locale. -/
def isspace (c : Char) : Bool :=
  c.toNat = 32 || (9 ≤ c.toNat && c.toNat ≤ 13)

/-- Value of a hexadecimal digit, `none` for any other character. -/
def hexDigitVal (c : Char) : Option Nat :=
  if 48 ≤ c.toNat ∧ c.toNat ≤ 57 then some (c.toNat - 48)
  else if 97 ≤ c.toNat ∧ c.toNat ≤ 102 then some (c.toNat - 87)
  else if 65 ≤ c.toNat ∧ c.toNat ≤ 70 then some (c.toNat - 55)
  else none

/-- Accumulates the longest run of leading hexadecimal digits onto `acc`, as the
conversion loop of `strtol` does (without the range cut-off, applied afterwards). -/
def strtol_digits : List Char → Nat → Nat
  | [], acc => acc
  | c :: cs, acc =>
    match hexDigitVal c with
    | some d => strtol_digits cs (acc * 16 + d)
    | none => acc

/-- `LONG_MAX` of the ESP32 tool chain (32-bit `long`). -/
def LONG_MAX : Int := 2 ^ 31 - 1

/-- `LONG_MIN` of the ESP32 tool chain (32-bit `long`). -/
def LONG_MIN : Int := -(2 ^ 31)

/-- The optional sign `strtol` accepts after the white space: whether the value is
negated, and the rest of the string. -/
def strtol_sign (s : List Char) : Bool × List Char :=
  match s with
  | '-' :: r => (true, r)
  | '+' :: r => (false, r)
  | _ => (false, s)

/-- The optional `0x`/`0X` that `strtol` accepts in base 16: it is skipped when a
hexadecimal digit follows it; otherwise the conversion starts at the `0`. -/
def strtol_0x (s : List Char) : List Char :=
  match s with
  | '0' :: x :: d :: r => if (x = 'x' ∨ x = 'X') ∧ (hexDigitVal d).isSome then d :: r else s
  | _ => s

/-- Model of `strtol(s, NULL, 16)`: skips white space, takes an optional sign, an optional
`0x`/`0X` that is followed by a hexadecimal digit, then the longest run of hexadecimal
digits; a value outside the range of `long` is replaced by `LONG_MAX`/`LONG_MIN`. -/
def strtol16 (s : List Char) : Int :=
  let signed := strtol_sign (s.dropWhile isspace)
  let mag : Int := (strtol_digits (strtol_0x signed.2) 0 : Nat)
  if signed.1 then (if -mag < LONG_MIN then LONG_MIN else -mag)
  else (if mag > LONG_MAX then LONG_MAX else mag)

/-! ## `ledc.c` -/

/-- Embedding of `hex_color_to_uint32` (`ledc.c`). The argument is `none` for a `NULL`
pointer. `hexColor[i]` of a string shorter than `i` reads its terminator. -/
def hex_color_to_uint32 (hexColor : Option (List Char)) : Nat :=
  match hexColor with
  | none => 0
  | some s =>
    if s.getD 0 NUL ≠ '0' ∨ s.getD 1 NUL ≠ 'x' then 0
    else
      let color : Nat := (strtol16 s % 2 ^ 32).toNat
      if color > 0xFFFFFF then 0 else color

/-- The three 8-bit channels `ledc_set_color` extracts from its argument. -/
structure LedChannels where
  red : Nat
  green : Nat
  blue : Nat
  deriving DecidableEq, Repr

/-- Embedding of the channel extraction of `ledc_set_color` (`ledc.c`); the conversion to
`uint8_t` is the reduction modulo 256. The duty scaling by the floating-point `FACTOR`
and the calls into the PWM driver are not part of the embedding. -/
def ledc_set_color (color : Nat) : LedChannels :=
  { red := ((color >>> 16) &&& 0xFF) % 256
    green := ((color >>> 8) &&& 0xFF) % 256
    blue := (color &&& 0xFF) % 256 }

/-! ## Recorded calls -/

/-- The tasks the firmware creates with `xTaskCreate`. -/
inductive TaskFn
  | rtdb_listening_task
  | run_when_wifi_connected_task
  | clear_nvs_and_reset_task
  | smartconfig_task
  deriving DecidableEq, Repr

/-- The calls whose occurrence the theorems speak about. -/
inductive Call
  | ledc_set_color (color : Nat)
  | interrupt_hard_reset
  | esp_restart
  | esp_wifi_connect
  | write_nvs
  | init_working_mode
  | init_smartconfig_mode
  deriving DecidableEq, Repr

/-! ## `controllable_event_handler.c` -/

/-- Embedding of `controllable_event_handler`. The result is the trace of the calls the
handler makes (only `ledc_set_color` can occur). -/
def controllable_event_handler (buffer : List Char) : List Call :=
  if (strstr buffer "null".toList).isSome then []
  else
    match strstr buffer "0x".toList with
    | none => []
    | some pos =>
      match strdup (buffer.drop pos) with
      | none => []
      | some local_cache =>
        match strstr local_cache [DQUOTE] with
        | some quotePos =>
          [Call.ledc_set_color (hex_color_to_uint32 (some (local_cache.take quotePos)))]
        | none => []

/-! ## The NVS key-value store (ESP-IDF `nvs.h`), namespace `"storage"` -/

/-- The error codes of `esp_err_t` that the modelled calls can return. -/
inductive esp_err_t
  | ESP_OK
  | ESP_ERR_NVS_NOT_FOUND
  | ESP_ERR_NVS_INVALID_LENGTH
  deriving DecidableEq, Repr

/-- Mode argument of `nvs_open`. -/
inductive nvs_open_mode_t
  | NVS_READONLY
  | NVS_READWRITE
  deriving DecidableEq, Repr

/-- The entries of one namespace: the string stored under each key, if any. The firmware
stores strings only (`nvs_set_str`). -/
abbrev NvsEntries := String → Option (List Char)

/-- The NVS partition as far as the namespace `"storage"` goes: `none` until the
namespace has been created by the first read-write open. -/
abbrev NvsFlash := Option NvsEntries

/-- A namespace without entries. -/
def NvsEntries.empty : NvsEntries := fun _ => none

/-- Model of `nvs_open("storage", mode, &handle)`. A read-only open of a namespace that
does not exist yet returns `ESP_ERR_NVS_NOT_FOUND`; a read-write open creates it. The
handle is identified with the entries it gives access to. -/
def nvs_open (flash : NvsFlash) (mode : nvs_open_mode_t) : esp_err_t × NvsEntries :=
  match flash, mode with
  | some h, _ => (esp_err_t.ESP_OK, h)
  | none, nvs_open_mode_t.NVS_READWRITE => (esp_err_t.ESP_OK, NvsEntries.empty)
  | none, nvs_open_mode_t.NVS_READONLY => (esp_err_t.ESP_ERR_NVS_NOT_FOUND, NvsEntries.empty)

/-- Model of `nvs_set_str(handle, key, value)` on a partition with room left. -/
def nvs_set_str (h : NvsEntries) (key : String) (value : List Char) : esp_err_t × NvsEntries :=
  (esp_err_t.ESP_OK, fun k => if k = key then some value else h k)

/-- Model of `nvs_get_str(handle, key, out_value, &length)`. The result is the error
code, the new value of `length` and the string written to `out_value` (if any). A key that
does not exist gives `ESP_ERR_NVS_NOT_FOUND`; a `length` smaller than the size of the
stored string with its terminator gives `ESP_ERR_NVS_INVALID_LENGTH`; on success `length`
becomes that size, terminator included. -/
def nvs_get_str (h : NvsEntries) (key : String) (length : Nat) :
    esp_err_t × Nat × Option (List Char) :=
  match h key with
  | none => (esp_err_t.ESP_ERR_NVS_NOT_FOUND, length, none)
  | some v =>
    if length < v.length + 1 then (esp_err_t.ESP_ERR_NVS_INVALID_LENGTH, v.length + 1, none)
    else (esp_err_t.ESP_OK, v.length + 1, some v)

/-- Model of `nvs_erase_key(handle, key)`: `ESP_ERR_NVS_NOT_FOUND` when the key does not
exist, as the ESP-IDF documentation of the call states. -/
def nvs_erase_key (h : NvsEntries) (key : String) : esp_err_t × NvsEntries :=
  match h key with
  | none => (esp_err_t.ESP_ERR_NVS_NOT_FOUND, h)
  | some _ => (esp_err_t.ESP_OK, fun k => if k = key then none else h k)

/-- Model of `nvs_erase_all(handle)`: succeeds whatever the namespace holds. -/
def nvs_erase_all (_h : NvsEntries) : esp_err_t × NvsEntries :=
  (esp_err_t.ESP_OK, NvsEntries.empty)

/-- Model of `nvs_commit(handle)`. Changes are applied to the entries as they are made, so
the commit has nothing left to do. -/
def nvs_commit (_h : NvsEntries) : esp_err_t := esp_err_t.ESP_OK

/-! ## `global_variables.h` -/

/-- The identity buffers of `global_variables.h`. The four texts are held as C strings;
`bssid` holds the six raw bytes of the array and `after_bssid` the bytes that follow the
array in memory, which the store calls reach because they treat `bssid` as a string. -/
structure Globals where
  ssid : List Char
  password : List Char
  room_id : List Char
  bssid : List Char
  bssid_set : Bool
  device_id : List Char
  after_bssid : List Char
  deriving DecidableEq, Repr

/-- `sizeof(ssid)`. -/
def sizeof_ssid : Nat := 33
/-- `sizeof(password)`. -/
def sizeof_password : Nat := 65
/-- `sizeof(room_id)`. -/
def sizeof_room_id : Nat := 37
/-- `sizeof(bssid)`. -/
def sizeof_bssid : Nat := 6
/-- `sizeof(device_id)`. -/
def sizeof_device_id : Nat := 33

/-- The globals at boot: zero-initialised static storage. -/
def Globals.boot : Globals :=
  { ssid := [], password := [], room_id := [], bssid := List.replicate 6 NUL,
    bssid_set := false, device_id := [], after_bssid := [] }

/-- Writing `data` at the start of a region of memory. -/
def memwrite (mem data : List Char) : List Char :=
  data ++ mem.drop data.length

/-! ## `utils.c` -/

/-- Embedding of `read_nvs`: the returned flag and the globals as the call leaves them.
Each text is read with the size `sizeof(array) + 1`, as in the source; the byte such a
read can write past a text array is not tracked. For `bssid` the bytes written are
tracked, the terminator that lands behind the array included. -/
def read_nvs (g : Globals) (flash : NvsFlash) : Bool × Globals :=
  let o := nvs_open flash nvs_open_mode_t.NVS_READONLY
  if o.1 ≠ esp_err_t.ESP_OK then (false, g)
  else
    let nvs_handle := o.2
    -- Read SSID from NVS
    let r := nvs_get_str nvs_handle "ssid" (sizeof_ssid + 1)
    let g := { g with ssid := r.2.2.getD g.ssid }
    if ¬ (r.1 = esp_err_t.ESP_OK ∧ r.2.1 > 0) then (false, g)
    else
      -- Read password from NVS
      let r := nvs_get_str nvs_handle "password" (sizeof_password + 1)
      let g := { g with password := r.2.2.getD g.password }
      if ¬ (r.1 = esp_err_t.ESP_OK ∧ r.2.1 > 0) then (false, g)
      else
        -- Read room_id from NVS
        let r := nvs_get_str nvs_handle "room_id" (sizeof_room_id + 1)
        let g := { g with room_id := r.2.2.getD g.room_id }
        if ¬ (r.1 = esp_err_t.ESP_OK ∧ r.2.1 > 0) then (false, g)
        else
          -- Read device_id from NVS
          let r := nvs_get_str nvs_handle "device_id" (sizeof_device_id + 1)
          let g := { g with device_id := r.2.2.getD g.device_id }
          if ¬ (r.1 = esp_err_t.ESP_OK ∧ r.2.1 > 0) then (false, g)
          else
            -- Read bssid from NVS
            let r := nvs_get_str nvs_handle "bssid" (sizeof_bssid + 1)
            let mem : List Char :=
              match r.2.2 with
              | some v => memwrite (g.bssid ++ g.after_bssid) (v ++ [NUL])
              | none => g.bssid ++ g.after_bssid
            let g := { g with bssid := mem.take sizeof_bssid,
                              after_bssid := mem.drop sizeof_bssid }
            if r.1 = esp_err_t.ESP_OK ∧ r.2.1 = sizeof_bssid + 1 then
              (true, { g with bssid_set := true })
            else
              (true, { g with bssid_set := false })

/-- Embedding of `write_nvs`: the returned flag and the partition as the call leaves it
(entries written before a failing step stay written). -/
def write_nvs (g : Globals) (flash : NvsFlash) : Bool × NvsFlash :=
  let o := nvs_open flash nvs_open_mode_t.NVS_READWRITE
  if o.1 ≠ esp_err_t.ESP_OK then (false, flash)
  else
    -- Write SSID to NVS
    let w := nvs_set_str o.2 "ssid" g.ssid
    if w.1 ≠ esp_err_t.ESP_OK then (false, some w.2)
    else
      -- Write password to NVS
      let w := nvs_set_str w.2 "password" g.password
      if w.1 ≠ esp_err_t.ESP_OK then (false, some w.2)
      else
        -- Write bssid to NVS
        let w :=
          if g.bssid_set then nvs_set_str w.2 "bssid" (cstr (g.bssid ++ g.after_bssid))
          else nvs_erase_key w.2 "bssid"
        if w.1 ≠ esp_err_t.ESP_OK then (false, some w.2)
        else
          -- Write room_id to NVS
          let w := nvs_set_str w.2 "room_id" g.room_id
          if w.1 ≠ esp_err_t.ESP_OK then (false, some w.2)
          else
            -- Write device_id to NVS
            let w := nvs_set_str w.2 "device_id" g.device_id
            if w.1 ≠ esp_err_t.ESP_OK then (false, some w.2)
            else
              -- Commit the changes
              let err := nvs_commit w.2
              if err ≠ esp_err_t.ESP_OK then (false, some w.2)
              else (true, some w.2)

/-- Embedding of `clear_nvs_and_reset_task`, the task `interrupt_hard_reset` creates: the
partition as it is when `esp_restart` is reached. Each `ESP_ERROR_CHECK` passes on the
modelled store. -/
def clear_nvs_and_reset_task (flash : NvsFlash) : NvsFlash :=
  let o := nvs_open flash nvs_open_mode_t.NVS_READWRITE
  let e := nvs_erase_all o.2
  some e.2

/-- Embedding of `interrupt_hard_reset` as far as the store goes: the task it creates has
the highest priority and runs `clear_nvs_and_reset_task` to the restart. -/
def interrupt_hard_reset (flash : NvsFlash) : NvsFlash :=
  clear_nvs_and_reset_task flash

/-! ## `app_init.c` -/

/-- Embedding of the mode selection at the end of `app_init` (the driver and Wi-Fi set-up
before it passes its `ESP_ERROR_CHECK`s): the trace of the mode initialisers called and
the globals as `read_nvs` leaves them. -/
def app_init (g : Globals) (flash : NvsFlash) : List Call × Globals :=
  let r := read_nvs g flash
  if r.1 then ([Call.init_working_mode], r.2)
  else ([Call.init_smartconfig_mode], r.2)

/-! ## `mode_smartconfig.c` -/

/-- What the HTTP client reports during the registration call of `introduce_new_device`,
on a connection that was opened: the result of `esp_http_client_write`, the result of
`esp_http_client_fetch_headers`, the status code and the bytes of the response body. -/
structure Registration where
  write_len : Int
  fetch_len : Int
  status_code : Int
  body : List Char
  deriving DecidableEq, Repr

/-- The ways a run leaves the embedding. -/
inductive Fault
  | invalid_read
  deriving DecidableEq, Repr

/-- Embedding of `introduce_new_device`: the returned flag and the globals (`device_id`)
as the call leaves them. `buffer` is the zeroed 65-byte array after
`esp_http_client_read_response(client, buffer, 64)`, read as a C string. When no double
quote follows the colon, `start` is `NULL` and `strchr(start + 1, ...)` reads from
address 1, before the test of `start`: the run leaves the embedding with
`Fault.invalid_read`. -/
def introduce_new_device (g : Globals) (x : Registration) : Except Fault (Bool × Globals) :=
  if x.write_len < 0 then Except.ok (false, g)
  else if x.fetch_len < 0 then Except.ok (false, g)
  else if x.status_code ≠ 200 then Except.ok (false, g)
  else
    let buffer := cstr (x.body.take 64)
    match strstr buffer [':'] with
    | none => Except.ok (false, g)
    | some colon =>
      let pos := colon + 1
      match strchr (buffer.drop pos) DQUOTE with
      | none => Except.error Fault.invalid_read
      | some s =>
        let start := pos + s
        match strchr (buffer.drop (start + 1)) DQUOTE with
        | none => Except.ok (false, g)
        | some e =>
          let end_ := start + 1 + e
          let buffer := buffer.take end_
          let id := strncpy (buffer.drop (start + 1)) (sizeof_device_id - 1)
          Except.ok (true, { g with device_id := id })

/-- Outcome of the `CONNECTED_BIT` branch of `smartconfig_task`. -/
structure Provisioned where
  calls : List Call
  globals : Globals
  flash : NvsFlash

/-- Embedding of the `CONNECTED_BIT` branch of `smartconfig_task`:
`if (introduce_new_device() && write_nvs()) esp_restart(); else interrupt_hard_reset();`
with the calls made (to `write_nvs`, `esp_restart`, `interrupt_hard_reset`), the globals
and the partition at the restart. -/
def smartconfig_task (g : Globals) (flash : NvsFlash) (x : Registration) :
    Except Fault Provisioned :=
  match introduce_new_device g x with
  | Except.error f => Except.error f
  | Except.ok (false, g1) =>
    Except.ok { calls := [Call.interrupt_hard_reset], globals := g1,
                flash := interrupt_hard_reset flash }
  | Except.ok (true, g1) =>
    let w := write_nvs g1 flash
    if w.1 then
      Except.ok { calls := [Call.write_nvs, Call.esp_restart], globals := g1, flash := w.2 }
    else
      Except.ok { calls := [Call.write_nvs, Call.interrupt_hard_reset], globals := g1,
                  flash := interrupt_hard_reset w.2 }

/-! ## `mode_working.c` -/

namespace mode_working

/-- One result of `esp_http_client_read_response`: a failure (`-1`) or the bytes stored
into the buffer. -/
inductive ReadResult
  | failed
  | bytes (data : List Char)
  deriving DecidableEq, Repr

/-- The value `esp_http_client_read_response` returns. -/
def ReadResult.data_len : ReadResult → Int
  | ReadResult.failed => -1
  | ReadResult.bytes data => data.length

/-- The bytes the read stores at the start of the buffer. -/
def ReadResult.stored : ReadResult → List Char
  | ReadResult.failed => []
  | ReadResult.bytes data => data

/-- The C string `output_buffer` holds after a read into the zeroed 129-byte array;
`stack_after` is the memory that follows the array, reached when a read fills all 129
bytes. -/
def output_buffer (r : ReadResult) (stack_after : List Char) : List Char :=
  cstr (r.stored ++ List.replicate (129 - r.stored.length) NUL ++ stack_after)

/-- Embedding of one iteration of the inner `while` loop of `rtdb_listening_task`. -/
def rtdb_listening_chunk (stack_after : List Char) (r : ReadResult) : List Call :=
  if r.data_len = 0 then []
  else if r.data_len = 30 then []
  else controllable_event_handler (output_buffer r stack_after)

/-- Embedding of the inner `while` loop of `rtdb_listening_task` over the reads made while
the response stays chunked. -/
def rtdb_listening_loop (stack_after : List Char) : List ReadResult → List Call
  | [] => []
  | r :: rs => rtdb_listening_chunk stack_after r ++ rtdb_listening_loop stack_after rs

/-- What the HTTP client reports during one connection of `rtdb_listening_task`. -/
structure Connection where
  open_ok : Bool
  content_length : Int
  status_code : Int
  first : ReadResult
  reads : List ReadResult

/-- Embedding of one iteration of the outer loop of `rtdb_listening_task`: the calls made
from opening the connection to closing it. -/
def rtdb_listening_task (stack_after : List Char) (c : Connection) : List Call :=
  if ¬ c.open_ok then []
  else if c.content_length < 0 then []
  else if c.status_code = 200 then
    controllable_event_handler (output_buffer c.first stack_after)
      ++ rtdb_listening_loop stack_after c.reads
  else if c.status_code = 404 then [Call.interrupt_hard_reset]
  else []

/-- The events `wifi_event_handler` is registered for. -/
inductive Event
  | WIFI_EVENT_STA_DISCONNECTED (reason : Nat)
  | IP_EVENT_STA_GOT_IP
  | WIFI_EVENT_OTHER
  deriving DecidableEq, Repr

/-- `WIFI_REASON_4WAY_HANDSHAKE_TIMEOUT` of `esp_wifi_types.h`. -/
def WIFI_REASON_4WAY_HANDSHAKE_TIMEOUT : Nat := 15

/-- `WIFI_REASON_AUTH_FAIL` of `esp_wifi_types.h`. -/
def WIFI_REASON_AUTH_FAIL : Nat := 202

/-- The scheduler as the handler sees it: the tasks created and not deleted, each with its
handle, the next handle to hand out, and the other calls made so far. -/
structure Sched where
  tasks : List (Nat × TaskFn)
  next : Nat
  calls : List Call
  deriving DecidableEq, Repr

/-- The scheduler before any event. -/
def Sched.init : Sched := { tasks := [], next := 1, calls := [] }

/-- Model of `xTaskCreate`: the task is added and its handle returned. -/
def xTaskCreate (s : Sched) (f : TaskFn) : Sched × Option Nat :=
  ({ s with tasks := s.tasks ++ [(s.next, f)], next := s.next + 1 }, some s.next)

/-- Model of `vTaskDelete`. -/
def vTaskDelete (s : Sched) (h : Nat) : Sched :=
  { s with tasks := s.tasks.filter (fun t => t.1 ≠ h) }

/-- The number of instances of a task that are running. -/
def Sched.running (s : Sched) (f : TaskFn) : Nat :=
  (s.tasks.filter (fun t => t.2 = f)).length

/-- Embedding of `wifi_event_handler` of `mode_working.c`. The two task handles are
automatic variables of the handler, `NULL` at every entry. -/
def wifi_event_handler (s : Sched) (event : Event) : Sched :=
  let rtdb_listener : Option Nat := none
  let main_loop : Option Nat := none
  match event with
  | Event.WIFI_EVENT_STA_DISCONNECTED reason =>
    let s := match rtdb_listener with
      | some h => vTaskDelete s h
      | none => s
    let s := match main_loop with
      | some h => vTaskDelete s h
      | none => s
    if WIFI_REASON_4WAY_HANDSHAKE_TIMEOUT = reason ∨ WIFI_REASON_AUTH_FAIL = reason then
      let s := (xTaskCreate s TaskFn.clear_nvs_and_reset_task).1
      { s with calls := s.calls ++ [Call.interrupt_hard_reset] }
    else
      { s with calls := s.calls ++ [Call.esp_wifi_connect] }
  | Event.IP_EVENT_STA_GOT_IP =>
    let r := if rtdb_listener = none then xTaskCreate s TaskFn.rtdb_listening_task
      else (s, rtdb_listener)
    let m := if main_loop = none then xTaskCreate r.1 TaskFn.run_when_wifi_connected_task
      else (r.1, main_loop)
    m.1
  | Event.WIFI_EVENT_OTHER => s

/-- The scheduler after a sequence of events, delivered in order. -/
def deliver (s : Sched) (events : List Event) : Sched :=
  events.foldl wifi_event_handler s

end mode_working

/-! ## Vocabulary of the claims -/

/-- Spec side: whether a character is a hexadecimal digit. -/
def isHexDigit (c : Char) : Bool := (hexDigitVal c).isSome

/-- Spec side: the numeric value of a `0x` token, that is, of the longest run of
hexadecimal digits that follows its first two characters, without any bound. -/
def hexTokenValue (tok : List Char) : Nat :=
  ((tok.drop 2).takeWhile isHexDigit).foldl (fun acc c => acc * 16 + (hexDigitVal c).getD 0) 0

/-- Spec side: the character that writes the hexadecimal digit `d`, in upper or lower case. -/
def hexDigitChar (upper : Bool) (d : Nat) : Char :=
  if d < 10 then Char.ofNat (48 + d) else Char.ofNat ((if upper then 55 else 87) + d)

/-- Spec side: the 24-bit value `t` written as a token, `0x` followed by six hexadecimal
digits. -/
def hexToken (upper : Bool) (t : Nat) : List Char :=
  ['0', 'x', hexDigitChar upper (t / 16 ^ 5 % 16), hexDigitChar upper (t / 16 ^ 4 % 16),
    hexDigitChar upper (t / 16 ^ 3 % 16), hexDigitChar upper (t / 16 ^ 2 % 16),
    hexDigitChar upper (t / 16 % 16), hexDigitChar upper (t % 16)]


/-- Spec side: the texts of an identity fit their arrays, terminator included. -/
def Globals.fits (g : Globals) : Prop :=
  g.ssid.length < sizeof_ssid ∧ g.password.length < sizeof_password
    ∧ g.room_id.length < sizeof_room_id ∧ g.device_id.length < sizeof_device_id

instance (g : Globals) : Decidable g.fits := by
  unfold Globals.fits; infer_instance

/-- Spec side: the four required texts of an identity are non-empty. -/
def Globals.complete (g : Globals) : Prop :=
  g.ssid ≠ [] ∧ g.password ≠ [] ∧ g.room_id ≠ [] ∧ g.device_id ≠ []

instance (g : Globals) : Decidable g.complete := by
  unfold Globals.complete; infer_instance

/-- An identity used in the examples: the four texts set, no BSSID. -/
def Globals.sample : Globals :=
  { Globals.boot with ssid := "home".toList, password := "secret".toList,
                      room_id := "room-1".toList, device_id := "-Ndev".toList }

/-- A store in which `device_id` is the empty text and the other three texts are set; it
is what `write_nvs` stores after a registration answered with an empty name. -/
def NvsEntries.emptyDeviceId : NvsEntries := fun k =>
  if k = "ssid" then some "home".toList
  else if k = "password" then some "secret".toList
  else if k = "room_id" then some "room-1".toList
  else if k = "device_id" then some []
  else none

/-- A store that holds only `ssid` and `password`. -/
def NvsEntries.onlyWifi : NvsEntries := fun k =>
  if k = "ssid" then some "home".toList
  else if k = "password" then some "secret".toList
  else none

/-- The sample identity with a BSSID. -/
def Globals.sampleBssid : Globals :=
  { Globals.sample with bssid_set := true,
                        bssid := [Char.ofNat 1, Char.ofNat 2, Char.ofNat 3, Char.ofNat 4,
                                  Char.ofNat 5, Char.ofNat 6] }

/-- Spec side: a chunk of the event stream that carries the colour `t`: it is not of the
keep-alive length, holds no `null`, and holds the token of `t` followed by a double quote,
after a part free of `0x` and NUL. -/
def mode_working.ColorChunk (upper : Bool) (t : Nat) (chunk : List Char) : Prop :=
  ∃ pre post : List Char, chunk = pre ++ hexToken upper t ++ DQUOTE :: post
    ∧ ¬ "0x".toList <:+: pre ∧ NUL ∉ pre ∧ ¬ "null".toList <:+: chunk
    ∧ chunk.length ≠ 30

/-- A read that stores nothing (`data_len == 0`). -/
def mode_working.emptyRead : mode_working.ReadResult := mode_working.ReadResult.bytes []

/-- A first chunk of a 200 response that carries no colour (33 bytes). -/
def mode_working.sampleFirst : List Char :=
  "event: put\ndata: \x7b\"path\":\"/\"\x7d\n\n".toList

/-- A keep-alive chunk as the server sends it (30 bytes). -/
def mode_working.sampleKeepAlive : List Char :=
  "event: keep-alive\ndata: null\n\n".toList

/-- The text before the token in the sample colour chunks. -/
def mode_working.samplePre : List Char :=
  "event: put\ndata: \x7b\"path\":\"/\",\"data\":\"".toList

/-- The text after the closing quote in the sample colour chunks. -/
def mode_working.samplePost : List Char := "\x7d\n\n".toList

/-- A registration answered with status 500. -/
def Registration.rejected : Registration :=
  { write_len := 22, fetch_len := 0, status_code := 500, body := [] }

/-- A registration answered with status 200 and a body in which no double quote follows
the first colon. -/
def Registration.unquoted : Registration :=
  { write_len := 22, fetch_len := 10, status_code := 200, body := "\x7b\"name\":1\x7d".toList }

/-- A registration answered with status 200 and the body Firebase sends. -/
def Registration.accepted : Registration :=
  { write_len := 22, fetch_len := 17, status_code := 200,
    body := "\x7b\"name\":\"-Nabc\"\x7d".toList }

/-- The text before the token in a colour chunk that fills the receive buffer. -/
def mode_working.fullPre : List Char :=
  "event: put\ndata: \x7b\"path\":\"/\",\"data\":\x7b\"color\":\"".toList

/-- The text after the closing quote in that chunk: the start of a second field, up to the
129th byte of the chunk. -/
def mode_working.fullPost : List Char :=
  ",\"label\":\"".toList ++ List.replicate 64 'a'

/-- A colour chunk of 129 bytes, the most the reads of the inner loop return: it carries
the colour `0xFF0000`. -/
def mode_working.fullChunk : List Char :=
  mode_working.fullPre ++ hexToken true 0xFF0000 ++ DQUOTE :: mode_working.fullPost

/-- A chunk of 50 bytes that carries the colour `0x00ff7f`. -/
def mode_working.shortChunk : List Char :=
  mode_working.samplePre ++ hexToken false 0x00FF7F ++ DQUOTE :: mode_working.samplePost

/-- Bytes behind `output_buffer` on the stack of the task that hold the text `null`. -/
def mode_working.staleStack : List Char := "data: null\n\n".toList ++ [NUL]

/-- The connection of the failing input of C7: status 200, a first chunk without colour,
then a keep-alive chunk, the 129-byte chunk carrying `0xFF0000`, a keep-alive chunk and
the chunk carrying `0x00ff7f`. -/
def mode_working.fullConnection : mode_working.Connection :=
  { open_ok := true, content_length := 0, status_code := 200,
    first := mode_working.ReadResult.bytes mode_working.sampleFirst,
    reads := [mode_working.ReadResult.bytes mode_working.sampleKeepAlive,
              mode_working.ReadResult.bytes mode_working.fullChunk,
              mode_working.ReadResult.bytes mode_working.sampleKeepAlive,
              mode_working.ReadResult.bytes mode_working.shortChunk] }

/-! ## `printf` family -/

/-- Model of the conversion `%d` of an `int`: an optional minus sign and the decimal
digits. -/
def fmt_d (n : Int) : List Char :=
  if n < 0 then '-' :: Nat.toDigits 10 n.natAbs else Nat.toDigits 10 n.natAbs

/-- Model of `snprintf(buf, size, ...)` read back as a C string, given the text the format
produces: at most `size - 1` bytes are stored before the terminator. -/
def snprintf (size : Nat) (text : List Char) : List Char :=
  text.take (size - 1)

/-! ## `utils.c`: the reset task statement by statement -/

/-- The statements of `clear_nvs_and_reset_task`, used as its program counter. -/
inductive ResetPc
  | nvs_open
  | nvs_erase_all
  | nvs_commit
  | nvs_close
  | esp_restart
  deriving DecidableEq, Repr

/-- The position of a statement in `clear_nvs_and_reset_task`. -/
def ResetPc.index : ResetPc → Nat
  | ResetPc.nvs_open => 0
  | ResetPc.nvs_erase_all => 1
  | ResetPc.nvs_commit => 2
  | ResetPc.nvs_close => 3
  | ResetPc.esp_restart => 4

/-- One statement of `clear_nvs_and_reset_task` on the shared partition: the error code the
statement yields (`ESP_OK` for the two that return none), the partition after it and the
statement that follows (`none` after `esp_restart`). Each NVS call is atomic: the API
serialises its callers. A handle opened read-write gives access to the entries the
namespace holds at the time of the call. -/
def clear_nvs_and_reset_step (flash : NvsFlash) :
    ResetPc → esp_err_t × NvsFlash × Option ResetPc
  | ResetPc.nvs_open =>
    let o := nvs_open flash nvs_open_mode_t.NVS_READWRITE
    (o.1, some o.2, some ResetPc.nvs_erase_all)
  | ResetPc.nvs_erase_all =>
    let e := nvs_erase_all (nvs_open flash nvs_open_mode_t.NVS_READWRITE).2
    (e.1, some e.2, some ResetPc.nvs_commit)
  | ResetPc.nvs_commit =>
    (nvs_commit (nvs_open flash nvs_open_mode_t.NVS_READWRITE).2, flash,
      some ResetPc.nvs_close)
  | ResetPc.nvs_close => (esp_err_t.ESP_OK, flash, some ResetPc.esp_restart)
  | ResetPc.esp_restart => (esp_err_t.ESP_OK, flash, none)

/-- Two instances of `clear_nvs_and_reset_task`, created by two calls of
`interrupt_hard_reset`, on one partition: the statement each is at, the error codes the
checked calls have yielded so far, whether an `ESP_ERROR_CHECK` has aborted, and the
number of `esp_restart` calls executed. -/
structure ResetRace where
  flash : NvsFlash
  first : ResetPc
  second : ResetPc
  results : List esp_err_t
  aborted : Bool
  restarts : Nat

/-- The two tasks right after their creation. -/
def ResetRace.init (flash : NvsFlash) : ResetRace :=
  { flash := flash, first := ResetPc.nvs_open, second := ResetPc.nvs_open, results := [],
    aborted := false, restarts := 0 }

/-- One scheduling decision: the chosen task (`true` for the first) runs its next
statement. Nothing runs after a restart or an abort. -/
def ResetRace.step (r : ResetRace) (pick_first : Bool) : ResetRace :=
  if r.restarts ≠ 0 ∨ r.aborted then r
  else
    let pc := if pick_first then r.first else r.second
    let o := clear_nvs_and_reset_step r.flash pc
    if o.1 ≠ esp_err_t.ESP_OK then
      { r with results := r.results ++ [o.1], aborted := true }
    else
      match o.2.2 with
      | none => { r with flash := o.2.1, results := r.results ++ [o.1],
                         restarts := r.restarts + 1 }
      | some next =>
        if pick_first then
          { r with flash := o.2.1, first := next, results := r.results ++ [o.1] }
        else
          { r with flash := o.2.1, second := next, results := r.results ++ [o.1] }

/-- The two tasks under a schedule: the list of scheduling decisions, in order. -/
def ResetRace.run (flash : NvsFlash) (schedule : List Bool) : ResetRace :=
  schedule.foldl ResetRace.step (ResetRace.init flash)

/-- What holds of two racing reset tasks after `n` scheduling decisions. -/
def ResetRace.Inv (r : ResetRace) (n : Nat) : Prop :=
  r.aborted = false ∧ (∀ e ∈ r.results, e = esp_err_t.ESP_OK) ∧ r.restarts ≤ 1
    ∧ (r.restarts = 0 → r.first.index + r.second.index = n)
    ∧ (r.restarts = 1 → r.flash = some NvsEntries.empty)
    ∧ (2 ≤ r.first.index ∨ 2 ≤ r.second.index → r.flash = some NvsEntries.empty)

/-! ## `mode_working.c`: the telemetry publisher -/

namespace mode_working

/-- The `struct dht11_reading` of the sensor driver. -/
structure dht11_reading where
  status : Int
  temperature : Int
  humidity : Int
  deriving DecidableEq, Repr

/-- The request methods the firmware uses. -/
inductive esp_http_client_method_t
  | HTTP_METHOD_GET
  | HTTP_METHOD_POST
  | HTTP_METHOD_PATCH
  deriving DecidableEq, Repr

/-- A request as `esp_http_client_perform` sends it: the URL of the configuration, the
method, the `Content-Type` header and the post field. -/
structure HttpRequest where
  url : List Char
  method : esp_http_client_method_t
  content_type : List Char
  post_field : List Char
  deriving DecidableEq, Repr

/-- What the publisher does that the theorems speak about: requests sent and calls
made. -/
inductive Effect
  | http (request : HttpRequest)
  | call (c : Call)
  deriving DecidableEq, Repr

/-- What one pass through the publisher's loop meets: the reading `DHT11_read` returns and
the status code of the response to the request, if one is sent. -/
structure Cycle where
  reading : dht11_reading
  status_code : Int
  deriving DecidableEq, Repr

/-- The text `sensors_url` holds after the `snprintf` at the start of
`run_when_wifi_connected_task`; `DB_ROOT_URL` comes from `project_config.h`. -/
def sensors_url (DB_ROOT_URL : List Char) (g : Globals) : List Char :=
  snprintf 182 (DB_ROOT_URL ++ "/".toList ++ g.room_id ++ "/devices_map/".toList
    ++ g.device_id ++ "/sensors.json".toList)

/-- The text `jsonString` holds after the `snprintf` of the loop body. The degree sign of
the format is the two bytes `C2 B0` of its UTF-8 encoding. -/
def jsonString (r : dht11_reading) : List Char :=
  snprintf 128 ("\x7b \"temperature(".toList ++ [Char.ofNat 0xC2, Char.ofNat 0xB0]
    ++ "C)\" : ".toList ++ fmt_d r.temperature ++ " , \"humidity(%)\" : ".toList
    ++ fmt_d r.humidity ++ " \x7d".toList)

/-- Embedding of one pass through the loop of `run_when_wifi_connected_task`, from the
delay at its top to the end of the body: the request sent and the calls made. -/
def run_when_wifi_connected_task (DB_ROOT_URL : List Char) (g : Globals) (c : Cycle) :
    List Effect :=
  let dht_buffer := c.reading
  if dht_buffer.status ≠ 0 then []
  else
    let request : HttpRequest :=
      { url := sensors_url DB_ROOT_URL g,
        method := esp_http_client_method_t.HTTP_METHOD_PATCH,
        content_type := "application/json".toList,
        post_field := jsonString dht_buffer }
    if c.status_code = 401 then
      [Effect.http request, Effect.call Call.interrupt_hard_reset]
    else
      [Effect.http request]

/-- The publisher and the reset tasks under the scheduler: the partition, what the coming
passes of the publisher's loop will meet, the reset tasks created and not finished (each
at its statement), whether the process has restarted or aborted, and what has happened so
far. -/
structure Sys where
  flash : NvsFlash
  cycles : List Cycle
  resets : List ResetPc
  restarted : Bool
  aborted : Bool
  log : List Effect

/-- The system when the publisher starts. -/
def Sys.init (flash : NvsFlash) (cycles : List Cycle) : Sys :=
  { flash := flash, cycles := cycles, resets := [], restarted := false, aborted := false,
    log := [] }

/-- One step of the system under the fixed-priority scheduler. A reset task
(`configMAX_PRIORITIES`) is never blocked and runs before the publisher (priority 1): it
executes its next statement. With no reset task, the publisher makes one pass through its
loop; a call of `interrupt_hard_reset` in the pass creates a reset task. Nothing runs
after a restart or an abort. -/
def Sys.step (DB_ROOT_URL : List Char) (g : Globals) (s : Sys) : Sys :=
  if s.restarted ∨ s.aborted then s
  else
    match s.resets with
    | pc :: others =>
      let o := clear_nvs_and_reset_step s.flash pc
      if o.1 ≠ esp_err_t.ESP_OK then { s with aborted := true }
      else
        match o.2.2 with
        | none => { s with flash := o.2.1, restarted := true,
                           log := s.log ++ [Effect.call Call.esp_restart] }
        | some next => { s with flash := o.2.1, resets := next :: others }
    | [] =>
      match s.cycles with
      | [] => s
      | c :: cs =>
        let effects := run_when_wifi_connected_task DB_ROOT_URL g c
        { s with cycles := cs, log := s.log ++ effects,
                 resets := if Effect.call Call.interrupt_hard_reset ∈ effects
                   then [ResetPc.nvs_open] else [] }

/-- The system after `n` steps. -/
def Sys.run (DB_ROOT_URL : List Char) (g : Globals) : Nat → Sys → Sys
  | 0, s => s
  | n + 1, s => Sys.run DB_ROOT_URL g n (Sys.step DB_ROOT_URL g s)

end mode_working

/-! ## `mode_smartconfig.c`: the event handler -/

namespace mode_smartconfig

/-- The bits of `event_group_handle`: `CONNECTED_BIT` and `ESPTOUCH_DONE_BIT`. -/
structure EventBits where
  CONNECTED_BIT : Bool
  ESPTOUCH_DONE_BIT : Bool
  deriving DecidableEq, Repr

/-- The `smartconfig_type_t` of `esp_smartconfig.h`. -/
inductive smartconfig_type_t
  | SC_TYPE_ESPTOUCH
  | SC_TYPE_AIRKISS
  | SC_TYPE_ESPTOUCH_AIRKISS
  | SC_TYPE_ESPTOUCH_V2
  deriving DecidableEq, Repr

/-- The `smartconfig_event_got_ssid_pswd_t` of `esp_smartconfig.h`: 32 bytes of SSID, 64
bytes of password, the BSSID flag, 6 bytes of BSSID and the protocol type. -/
structure smartconfig_event_got_ssid_pswd_t where
  ssid : List Char
  password : List Char
  bssid_set : Bool
  bssid : List Char
  type : smartconfig_type_t
  deriving DecidableEq, Repr

/-- The events `wifi_event_handler` is registered for; `rvd_data` is what
`esp_smartconfig_get_rvd_data` delivers when the credentials arrive. -/
inductive Event
  | WIFI_EVENT_STA_START
  | WIFI_EVENT_STA_DISCONNECTED (reason : Nat)
  | WIFI_EVENT_OTHER
  | IP_EVENT_STA_GOT_IP
  | SC_EVENT_SCAN_DONE
  | SC_EVENT_FOUND_CHANNEL
  | SC_EVENT_GOT_SSID_PSWD (evt : smartconfig_event_got_ssid_pswd_t) (rvd_data : List Char)
  | SC_EVENT_SEND_ACK_DONE
  deriving DecidableEq, Repr

/-- What one run of the handler leaves behind: the globals, the event bits, the tasks
created and the recorded calls made, in order. -/
structure Handled where
  globals : Globals
  bits : EventBits
  created : List TaskFn
  calls : List Call
  deriving DecidableEq, Repr

/-- Embedding of `wifi_event_handler` of `mode_smartconfig.c`. The copies into `ssid` and
`password` take the 32 and 64 bytes of the event; the byte behind them in each array is
the zero the array started with. The calls `esp_wifi_disconnect` and
`esp_wifi_set_config` pass their `ESP_ERROR_CHECK` and are not recorded. -/
def wifi_event_handler (g : Globals) (bits : EventBits) (event : Event) : Handled :=
  match event with
  | Event.WIFI_EVENT_STA_START =>
    { globals := g, bits := bits, created := [TaskFn.smartconfig_task], calls := [] }
  | Event.WIFI_EVENT_STA_DISCONNECTED reason =>
    let bits := { bits with CONNECTED_BIT := false }
    if mode_working.WIFI_REASON_4WAY_HANDSHAKE_TIMEOUT = reason
        ∨ mode_working.WIFI_REASON_AUTH_FAIL = reason then
      { globals := g, bits := bits, created := [TaskFn.clear_nvs_and_reset_task],
        calls := [Call.interrupt_hard_reset] }
    else
      { globals := g, bits := bits, created := [], calls := [Call.esp_wifi_connect] }
  | Event.IP_EVENT_STA_GOT_IP =>
    { globals := g, bits := { bits with CONNECTED_BIT := true }, created := [], calls := [] }
  | Event.SC_EVENT_SCAN_DONE => { globals := g, bits := bits, created := [], calls := [] }
  | Event.SC_EVENT_FOUND_CHANNEL => { globals := g, bits := bits, created := [], calls := [] }
  | Event.SC_EVENT_GOT_SSID_PSWD evt rvd_data =>
    if evt.type ≠ smartconfig_type_t.SC_TYPE_ESPTOUCH_V2 then
      { globals := g, bits := bits, created := [], calls := [Call.esp_restart] }
    else
      let g := { g with ssid := cstr (evt.ssid.take 32),
                        password := cstr (evt.password.take 64),
                        room_id := cstr (rvd_data.take sizeof_room_id),
                        bssid_set := evt.bssid_set }
      let g := if g.bssid_set then { g with bssid := memwrite g.bssid (evt.bssid.take 6) }
        else g
      { globals := g, bits := bits, created := [], calls := [Call.esp_wifi_connect] }
  | Event.SC_EVENT_SEND_ACK_DONE =>
    { globals := g, bits := { bits with ESPTOUCH_DONE_BIT := true }, created := [],
      calls := [] }
  | Event.WIFI_EVENT_OTHER => { globals := g, bits := bits, created := [], calls := [] }

end mode_smartconfig

/-! ## Examples for the later theorems -/

/-- A valid reading answered with status 200. -/
def mode_working.Cycle.accepted : mode_working.Cycle :=
  { reading := { status := 0, temperature := 23, humidity := 45 }, status_code := 200 }

/-- A valid reading answered with status 401. -/
def mode_working.Cycle.revoked : mode_working.Cycle :=
  { reading := { status := 0, temperature := 24, humidity := 44 }, status_code := 401 }

/-- A failed reading. -/
def mode_working.Cycle.failed : mode_working.Cycle :=
  { reading := { status := -1, temperature := -1, humidity := -1 }, status_code := 0 }

/-- A root URL for the examples. -/
def sampleRoot : List Char := "https://example.firebaseio.com".toList

/-- A schedule of the two reset tasks for the examples: nine decisions, `true` for the
first task. -/
def ResetRace.sampleSchedule : List Bool :=
  [true, false, false, true, false, true, true, false, true]

/-! ## Theorems -/

theorem hexDigitVal_hexDigitChar (upper : Bool) (d : Nat) (hd : d < 16) :
    hexDigitVal (hexDigitChar upper d) = some d := by
  interval_cases d <;> cases upper <;> decide

theorem hexDigitChar_ne_DQUOTE (upper : Bool) (d : Nat) (hd : d < 16) :
    hexDigitChar upper d ≠ DQUOTE := by
  interval_cases d <;> cases upper <;> decide

theorem strstr_eq_none_iff (n : List Char) : ∀ s : List Char, strstr s n = none ↔ ¬ n <:+: s
  | [] => by
    simp only [strstr]
    by_cases h : n = [] <;> simp [h]
  | c :: cs => by
    have ih := strstr_eq_none_iff n cs
    simp only [strstr]
    by_cases h : n.isPrefixOf (c :: cs) = true
    · simp only [h, if_true]
      have : n <+: c :: cs := List.isPrefixOf_iff_prefix.mp h
      simp [this.isInfix]
    · simp only [h, if_false, Option.map_eq_none', Bool.false_eq_true]
      rw [ih, List.infix_cons_iff]
      have : ¬ n <+: c :: cs := fun hp => h ( List.isPrefixOf_iff_prefix.mpr hp)
      tauto

theorem strstr_0x (rest : List Char) : ∀ pre : List Char, ¬ ['0', 'x'] <:+: pre →
    strstr (pre ++ '0' :: 'x' :: rest) ['0', 'x'] = some pre.length
  | [], _ => by simp [strstr, List.isPrefixOf]
  | c :: cs, h => by
    have hcs : ¬ ['0', 'x'] <:+: cs := fun hi => h (List.infix_cons hi)
    have ih := strstr_0x rest cs hcs
    have hp : ¬ ['0', 'x'] <+: (c :: cs) := fun hp => h hp.isInfix
    have hnp : List.isPrefixOf ['0', 'x'] (c :: (cs ++ '0' :: 'x' :: rest)) = false := by
      cases cs with
      | nil => simp [List.isPrefixOf]
      | cons d ds =>
        simp only [List.cons_append, List.isPrefixOf, Bool.and_true]
        by_contra hne
        apply hp
        simp only [Bool.not_eq_false, Bool.and_eq_true, beq_iff_eq] at hne
        obtain ⟨h1, h2⟩ := hne
        subst h1; subst h2
        exact ⟨ds, rfl⟩
    show strstr (c :: (cs ++ '0' :: 'x' :: rest)) ['0', 'x'] = _
    rw [strstr, hnp, ih]
    simp

theorem strstr_singleton (c : Char) (post : List Char) : ∀ body : List Char, c ∉ body →
    strstr (body ++ c :: post) [c] = some body.length
  | [], _ => by simp [strstr, List.isPrefixOf]
  | d :: ds, h => by
    have hd : ¬ c = d := fun e => h (by simp [e])
    have ih := strstr_singleton c post ds (fun hm => h (List.mem_cons_of_mem _ hm))
    simp [strstr, List.isPrefixOf, ih, hd]


theorem strtol16_0x_six (c5 c4 c3 c2 c1 c0 : Char) (v5 v4 v3 v2 v1 v0 : Nat)
    (h5 : hexDigitVal c5 = some v5) (h4 : hexDigitVal c4 = some v4)
    (h3 : hexDigitVal c3 = some v3) (h2 : hexDigitVal c2 = some v2)
    (h1 : hexDigitVal c1 = some v1) (h0 : hexDigitVal c0 = some v0)
    (hv : v5 < 16 ∧ v4 < 16 ∧ v3 < 16 ∧ v2 < 16 ∧ v1 < 16 ∧ v0 < 16) :
    strtol16 ['0', 'x', c5, c4, c3, c2, c1, c0]
      = (((((v5 * 16 + v4) * 16 + v3) * 16 + v2) * 16 + v1) * 16 + v0 : Nat) := by
  have hsp : isspace '0' = false := by decide
  have hd : strtol_digits [c5, c4, c3, c2, c1, c0] 0
      = ((((v5 * 16 + v4) * 16 + v3) * 16 + v2) * 16 + v1) * 16 + v0 := by
    simp [strtol_digits, h5, h4, h3, h2, h1, h0]
  have hsg : strtol_sign ('0' :: 'x' :: [c5, c4, c3, c2, c1, c0])
      = (false, '0' :: 'x' :: [c5, c4, c3, c2, c1, c0]) := rfl
  have hx : strtol_0x ('0' :: 'x' :: [c5, c4, c3, c2, c1, c0]) = [c5, c4, c3, c2, c1, c0] := by
    simp [strtol_0x, h5]
  simp only [strtol16, List.dropWhile, hsp, hsg, hx, hd, LONG_MAX]
  simp
  omega

theorem strtol16_hexToken (upper : Bool) (t : Nat) (ht : t < 2 ^ 24) :
    strtol16 (hexToken upper t) = (t : Int) := by
  have h5 := hexDigitVal_hexDigitChar upper (t / 16 ^ 5 % 16) (Nat.mod_lt _ (by norm_num))
  have h4 := hexDigitVal_hexDigitChar upper (t / 16 ^ 4 % 16) (Nat.mod_lt _ (by norm_num))
  have h3 := hexDigitVal_hexDigitChar upper (t / 16 ^ 3 % 16) (Nat.mod_lt _ (by norm_num))
  have h2 := hexDigitVal_hexDigitChar upper (t / 16 ^ 2 % 16) (Nat.mod_lt _ (by norm_num))
  have h1 := hexDigitVal_hexDigitChar upper (t / 16 % 16) (Nat.mod_lt _ (by norm_num))
  have h0 := hexDigitVal_hexDigitChar upper (t % 16) (Nat.mod_lt _ (by norm_num))
  have hv : t / 16 ^ 5 % 16 < 16 ∧ t / 16 ^ 4 % 16 < 16 ∧ t / 16 ^ 3 % 16 < 16
      ∧ t / 16 ^ 2 % 16 < 16 ∧ t / 16 % 16 < 16 ∧ t % 16 < 16 := by
    refine ⟨?_, ?_, ?_, ?_, ?_, ?_⟩ <;> exact Nat.mod_lt _ (by norm_num)
  rw [hexToken, strtol16_0x_six _ _ _ _ _ _ _ _ _ _ _ _ h5 h4 h3 h2 h1 h0 hv]
  congr 1
  norm_num at ht ⊢
  omega

theorem hex_color_to_uint32_hexToken (upper : Bool) (t : Nat) (ht : t < 2 ^ 24) :
    hex_color_to_uint32 (some (hexToken upper t)) = t := by
  have hs := strtol16_hexToken upper t ht
  have h01 : (hexToken upper t).getD 0 NUL = '0' ∧ (hexToken upper t).getD 1 NUL = 'x' := by
    simp [hexToken]
  simp only [hex_color_to_uint32, h01.1, h01.2, hs]
  norm_num at ht
  have e : ((t : Int) % 2 ^ 32).toNat = t := by omega
  simp only [e]
  simp
  omega

theorem ledc_set_color_channels (t : Nat) (ht : t < 2 ^ 24) :
    ((ledc_set_color t).red <<< 16) ||| ((ledc_set_color t).green <<< 8)
      ||| (ledc_set_color t).blue = t := by
  have e255 : (0xFF : Nat) = 2 ^ 8 - 1 := by norm_num
  simp only [ledc_set_color, e255, Nat.and_pow_two_sub_one_eq_mod, Nat.shiftRight_eq_div_pow,
    Nat.shiftLeft_eq]
  have hb : t % 2 ^ 8 % 256 < 2 ^ 8 := by norm_num; omega
  have hgb : 2 ^ 8 * (t / 2 ^ 8 % 2 ^ 8 % 256) + t % 2 ^ 8 % 256 < 2 ^ 16 := by
    norm_num; omega
  have k1 := Nat.mul_add_lt_is_or hb (t / 2 ^ 8 % 2 ^ 8 % 256)
  have k2 := Nat.mul_add_lt_is_or hgb (t / 2 ^ 16 % 2 ^ 8 % 256)
  rw [Nat.mul_comm _ (2 ^ 16), Nat.mul_comm _ (2 ^ 8), Nat.or_assoc, ← k1, ← k2]
  norm_num at ht ⊢
  omega

/-- The channels `ledc_set_color` extracts are the three low bytes of its argument. -/
theorem ledc_set_color_bytes (color : Nat) :
    (ledc_set_color color).red = color / 2 ^ 16 % 2 ^ 8
      ∧ (ledc_set_color color).green = color / 2 ^ 8 % 2 ^ 8
      ∧ (ledc_set_color color).blue = color % 2 ^ 8 := by
  have e255 : (0xFF : Nat) = 2 ^ 8 - 1 := by norm_num
  simp only [ledc_set_color, e255, Nat.and_pow_two_sub_one_eq_mod, Nat.shiftRight_eq_div_pow]
  norm_num

theorem DQUOTE_not_mem_hexToken (upper : Bool) (t : Nat) : DQUOTE ∉ hexToken upper t := by
  have h5 := hexDigitChar_ne_DQUOTE upper (t / 16 ^ 5 % 16) (Nat.mod_lt _ (by norm_num))
  have h4 := hexDigitChar_ne_DQUOTE upper (t / 16 ^ 4 % 16) (Nat.mod_lt _ (by norm_num))
  have h3 := hexDigitChar_ne_DQUOTE upper (t / 16 ^ 3 % 16) (Nat.mod_lt _ (by norm_num))
  have h2 := hexDigitChar_ne_DQUOTE upper (t / 16 ^ 2 % 16) (Nat.mod_lt _ (by norm_num))
  have h1 := hexDigitChar_ne_DQUOTE upper (t / 16 % 16) (Nat.mod_lt _ (by norm_num))
  have h0 := hexDigitChar_ne_DQUOTE upper (t % 16) (Nat.mod_lt _ (by norm_num))
  have a0 : DQUOTE ≠ '0' := by decide
  have a1 : DQUOTE ≠ 'x' := by decide
  simp only [hexToken, List.mem_cons, List.mem_singleton, List.not_mem_nil, or_false, not_or]
  exact ⟨a0, a1, h5.symm, h4.symm, h3.symm, h2.symm, h1.symm, h0.symm⟩

theorem hexToken_length (upper : Bool) (t : Nat) : (hexToken upper t).length = 8 := rfl

/-- The handler on a payload without `null` whose first `0x` starts a token `tok` that
holds no double quote and is followed by one: one call, with the converted token. -/
theorem controllable_event_handler_token (pre body post : List Char)
    (h0x : ¬ ['0', 'x'] <:+: pre) (hq : DQUOTE ∉ body)
    (hnull : ¬ ['n', 'u', 'l', 'l'] <:+: pre ++ '0' :: 'x' :: (body ++ DQUOTE :: post)) :
    controllable_event_handler (pre ++ '0' :: 'x' :: (body ++ DQUOTE :: post))
      = [Call.ledc_set_color (hex_color_to_uint32 (some ('0' :: 'x' :: body)))] := by
  have hn : strstr (pre ++ '0' :: 'x' :: (body ++ DQUOTE :: post)) "null".toList = none :=
    (strstr_eq_none_iff _ _).mpr hnull
  have hx : strstr (pre ++ '0' :: 'x' :: (body ++ DQUOTE :: post)) "0x".toList
      = some pre.length := strstr_0x _ pre h0x
  have hq2 : DQUOTE ∉ '0' :: 'x' :: body := by
    have a0 : DQUOTE ≠ '0' := by decide
    have a1 : DQUOTE ≠ 'x' := by decide
    simp only [List.mem_cons, not_or]
    exact ⟨a0, a1, hq⟩
  have hd := strstr_singleton DQUOTE post ('0' :: 'x' :: body) hq2
  simp only [List.cons_append] at hd
  simp only [controllable_event_handler, hn, hx, Option.isSome_none, Bool.false_eq_true,
    if_false, List.drop_left, strdup, hd]
  simp

theorem strtol_digits_eq_foldl : ∀ (s : List Char) (acc : Nat),
    strtol_digits s acc
      = (s.takeWhile isHexDigit).foldl (fun acc c => acc * 16 + (hexDigitVal c).getD 0) acc
  | [], acc => rfl
  | c :: cs, acc => by
    cases h : hexDigitVal c with
    | none => simp [strtol_digits, h, isHexDigit, List.takeWhile]
    | some d =>
      simp [strtol_digits, h, isHexDigit, List.takeWhile, strtol_digits_eq_foldl cs]

theorem strtol_digits_0x (body : List Char) :
    strtol_digits (strtol_0x ('0' :: 'x' :: body)) 0 = strtol_digits body 0 := by
  have hz : hexDigitVal '0' = some 0 := by decide
  have hxn : hexDigitVal 'x' = none := by decide
  cases body with
  | nil => simp [strtol_0x, strtol_digits, hz, hxn]
  | cons d r =>
    cases h : hexDigitVal d with
    | none => simp [strtol_0x, strtol_digits, h, hz, hxn]
    | some v => simp [strtol_0x, strtol_digits, h]

/-- The conversion of a string that starts with `0x`: the value of the token, cut off at
`LONG_MAX`. -/
theorem strtol16_0x (body : List Char) :
    strtol16 ('0' :: 'x' :: body)
      = min (hexTokenValue ('0' :: 'x' :: body) : Int) LONG_MAX := by
  have hsp : isspace '0' = false := by decide
  have hsg : strtol_sign ('0' :: 'x' :: body) = (false, '0' :: 'x' :: body) := rfl
  have hv : hexTokenValue ('0' :: 'x' :: body) = strtol_digits body 0 := by
    simp [hexTokenValue, strtol_digits_eq_foldl]
  simp only [strtol16, List.dropWhile, hsp, hsg, strtol_digits_0x, hv]
  simp only [Bool.false_eq_true, if_false]
  split
  · rw [min_eq_right]; omega
  · rw [min_eq_left]; omega

theorem hex_color_to_uint32_0x (body : List Char) :
    hex_color_to_uint32 (some ('0' :: 'x' :: body))
      = if hexTokenValue ('0' :: 'x' :: body) > 0xFFFFFF then 0
        else hexTokenValue ('0' :: 'x' :: body) := by
  have h01 : ('0' :: 'x' :: body).getD 0 NUL = '0' ∧ ('0' :: 'x' :: body).getD 1 NUL = 'x' := by
    simp
  simp only [hex_color_to_uint32, h01.1, h01.2, strtol16_0x, LONG_MAX]
  simp only [ne_eq, not_true_eq_false, or_self, if_false]
  generalize hexTokenValue ('0' :: 'x' :: body) = v
  by_cases hv : v > 0xFFFFFF
  · have : (min (v : Int) (2 ^ 31 - 1) % 2 ^ 32).toNat > 0xFFFFFF := by omega
    simp only [this, hv, if_true]
  · have e : (min (v : Int) (2 ^ 31 - 1) % 2 ^ 32).toNat = v := by omega
    simp only [e, hv, if_false]

/-- The handler on a payload that holds the token of `t` followed by a double quote,
with no `0x` before the token and no `null`: one call, with `t`. -/
theorem controllable_event_handler_hexToken (upper : Bool) (t : Nat) (ht : t < 2 ^ 24)
    (pre post : List Char) (h0x : ¬ "0x".toList <:+: pre)
    (hnull : ¬ "null".toList <:+: pre ++ hexToken upper t ++ DQUOTE :: post) :
    controllable_event_handler (pre ++ hexToken upper t ++ DQUOTE :: post)
      = [Call.ledc_set_color t] := by
  have hq : DQUOTE ∉ (hexToken upper t).drop 2 := fun hm =>
    DQUOTE_not_mem_hexToken upper t (List.mem_of_mem_drop hm)
  have e : hexToken upper t = '0' :: 'x' :: (hexToken upper t).drop 2 := rfl
  have key := controllable_event_handler_token pre ((hexToken upper t).drop 2) post h0x hq
  have hv := hex_color_to_uint32_hexToken upper t ht
  rw [e] at hv
  rw [e, List.append_assoc] at hnull
  have k2 := key hnull
  rw [hv] at k2
  rw [e, List.append_assoc]
  exact k2

/-- C1. For every 24-bit value `t`, written as the token `0x` followed by its six
hexadecimal digits (in upper or lower case), and every payload that holds the token
immediately followed by a double quote, with no `0x` before the token and no `null`
anywhere: `controllable_event_handler` calls `ledc_set_color` exactly once, with the value
`hex_color_to_uint32` returns for the token; that value is `t`; the channels
`ledc_set_color` extracts from it are red = bits 16-23 of `t`, green = bits 8-15,
blue = bits 0-7, each an 8-bit value; and they satisfy
`(red << 16) | (green << 8) | blue = t`. -/
theorem C1_color_token_roundtrip (upper : Bool) (t : Nat) (ht : t < 2 ^ 24)
    (pre post : List Char) (h0x : ¬ "0x".toList <:+: pre)
    (hnull : ¬ "null".toList <:+: pre ++ hexToken upper t ++ DQUOTE :: post) :
    controllable_event_handler (pre ++ hexToken upper t ++ DQUOTE :: post)
        = [Call.ledc_set_color (hex_color_to_uint32 (some (hexToken upper t)))]
      ∧ ((ledc_set_color (hex_color_to_uint32 (some (hexToken upper t)))).red <<< 16)
          ||| ((ledc_set_color (hex_color_to_uint32 (some (hexToken upper t)))).green <<< 8)
          ||| (ledc_set_color (hex_color_to_uint32 (some (hexToken upper t)))).blue = t
      ∧ hex_color_to_uint32 (some (hexToken upper t)) = t
      ∧ (ledc_set_color (hex_color_to_uint32 (some (hexToken upper t)))).red
          = t / 2 ^ 16 % 2 ^ 8
      ∧ (ledc_set_color (hex_color_to_uint32 (some (hexToken upper t)))).green
          = t / 2 ^ 8 % 2 ^ 8
      ∧ (ledc_set_color (hex_color_to_uint32 (some (hexToken upper t)))).blue = t % 2 ^ 8
      ∧ (ledc_set_color (hex_color_to_uint32 (some (hexToken upper t)))).red < 256
      ∧ (ledc_set_color (hex_color_to_uint32 (some (hexToken upper t)))).green < 256
      ∧ (ledc_set_color (hex_color_to_uint32 (some (hexToken upper t)))).blue < 256 := by
  rw [hex_color_to_uint32_hexToken upper t ht]
  obtain ⟨hr, hg, hb⟩ := ledc_set_color_bytes t
  refine ⟨controllable_event_handler_hexToken upper t ht pre post h0x hnull,
    ledc_set_color_channels t ht, rfl, hr, hg, hb, ?_, ?_, ?_⟩
  · rw [hr]; exact Nat.mod_lt _ (by norm_num)
  · rw [hg]; exact Nat.mod_lt _ (by norm_num)
  · rw [hb]; exact Nat.mod_lt _ (by norm_num)

theorem C1_color_token_roundtrip_witness :
    (0xFF00AA < 2 ^ 24 ∧ ¬ "0x".toList <:+: "\x7b\"color\":\"".toList
      ∧ ¬ "null".toList <:+: "\x7b\"color\":\"".toList ++ hexToken true 0xFF00AA
          ++ DQUOTE :: "\x7d".toList)
    ∧ (controllable_event_handler ("\x7b\"color\":\"".toList ++ hexToken true 0xFF00AA
          ++ DQUOTE :: "\x7d".toList)
        = [Call.ledc_set_color (hex_color_to_uint32 (some (hexToken true 0xFF00AA)))]
      ∧ ((ledc_set_color (hex_color_to_uint32 (some (hexToken true 0xFF00AA)))).red <<< 16)
          ||| ((ledc_set_color (hex_color_to_uint32 (some (hexToken true 0xFF00AA)))).green <<< 8)
          ||| (ledc_set_color (hex_color_to_uint32 (some (hexToken true 0xFF00AA)))).blue
          = 0xFF00AA
      ∧ hex_color_to_uint32 (some (hexToken true 0xFF00AA)) = 0xFF00AA
      ∧ (ledc_set_color (hex_color_to_uint32 (some (hexToken true 0xFF00AA)))).red
          = 0xFF00AA / 2 ^ 16 % 2 ^ 8
      ∧ (ledc_set_color (hex_color_to_uint32 (some (hexToken true 0xFF00AA)))).green
          = 0xFF00AA / 2 ^ 8 % 2 ^ 8
      ∧ (ledc_set_color (hex_color_to_uint32 (some (hexToken true 0xFF00AA)))).blue
          = 0xFF00AA % 2 ^ 8
      ∧ (ledc_set_color (hex_color_to_uint32 (some (hexToken true 0xFF00AA)))).red < 256
      ∧ (ledc_set_color (hex_color_to_uint32 (some (hexToken true 0xFF00AA)))).green < 256
      ∧ (ledc_set_color (hex_color_to_uint32 (some (hexToken true 0xFF00AA)))).blue < 256) :=
  ⟨⟨by decide, by decide, by decide⟩,
    C1_color_token_roundtrip true 0xFF00AA (by decide) "\x7b\"color\":\"".toList "\x7d".toList
      (by decide) (by decide)⟩

/-- C2, failing input: the payload holds the token `0x1000000`, whose value is above
`0xFFFFFF`, followed by a double quote. `hex_color_to_uint32` returns its error value 0 for
the token and `controllable_event_handler` passes it on: `ledc_set_color(0)` is called,
where the claim says no call is made. The sibling invalid payloads, without `0x` or
without the closing quote, make no call. -/
theorem C2_out_of_range_token_drives_actuator :
    (hexTokenValue "0x1000000".toList > 0xFFFFFF
      ∧ hex_color_to_uint32 (some "0x1000000".toList) = 0
      ∧ controllable_event_handler "\x7b\"color\":\"0x1000000\"\x7d".toList
          = [Call.ledc_set_color 0]
      ∧ controllable_event_handler "\x7b\"color\":\"0x1000000\"\x7d".toList ≠ [])
    ∧ (controllable_event_handler "\x7b\"color\":\"red\"\x7d".toList = []
      ∧ controllable_event_handler "\x7b\"color\":\"0x1000000".toList = []) := by
  decide

/-- The extent of the defect behind C2: on every payload without `null` whose first `0x`
starts a token (the text up to the next double quote) with a value above `0xFFFFFF`, the
handler calls `ledc_set_color` with the error value 0 of `hex_color_to_uint32`. -/
theorem controllable_event_handler_out_of_range (pre body post : List Char)
    (h0x : ¬ "0x".toList <:+: pre) (hq : DQUOTE ∉ body)
    (hnull : ¬ "null".toList <:+: pre ++ '0' :: 'x' :: (body ++ DQUOTE :: post))
    (hv : hexTokenValue ('0' :: 'x' :: body) > 0xFFFFFF) :
    controllable_event_handler (pre ++ '0' :: 'x' :: (body ++ DQUOTE :: post))
      = [Call.ledc_set_color 0] := by
  have hc : hex_color_to_uint32 (some ('0' :: 'x' :: body)) = 0 := by
    rw [hex_color_to_uint32_0x, if_pos hv]
  rw [controllable_event_handler_token pre body post h0x hq hnull, hc]

/-- C3, failing input: on a store that holds no `bssid` (the fresh partition, or the one
a hard reset leaves behind), saving a complete identity without BSSID fails: `nvs_erase_key`
reports the missing key and `write_nvs` takes that for an error. -/
theorem C3_write_nvs_without_bssid_fails :
    (Globals.sample.complete ∧ Globals.sample.fits ∧ Globals.sample.bssid_set = false)
      ∧ (write_nvs Globals.sample none).1 = false
      ∧ (write_nvs Globals.sample (clear_nvs_and_reset_task none)).1 = false := by
  decide

/-- C4, failing input: `device_id` is stored as the empty text, and `read_nvs` returns
true with an empty `device_id`: the size `nvs_get_str` reports counts the terminator, so
the test `allocated_size > 0` never fails. -/
theorem C4_read_nvs_empty_device_id :
    NvsEntries.emptyDeviceId "device_id" = some []
      ∧ (read_nvs Globals.boot (some NvsEntries.emptyDeviceId)).1 = true
      ∧ (read_nvs Globals.boot (some NvsEntries.emptyDeviceId)).2.device_id = [] := by
  decide

/-- What `read_nvs` does on a store that holds the four required texts, each short enough
for the size passed to `nvs_get_str`. -/
theorem read_nvs_present (g : Globals) (h : NvsEntries) (s p r d : List Char)
    (hs : h "ssid" = some s) (hp : h "password" = some p)
    (hr : h "room_id" = some r) (hd : h "device_id" = some d)
    (ls : s.length ≤ sizeof_ssid) (lp : p.length ≤ sizeof_password)
    (lr : r.length ≤ sizeof_room_id) (ld : d.length ≤ sizeof_device_id) :
    (read_nvs g (some h)).1 = true
      ∧ (read_nvs g (some h)).2.ssid = s ∧ (read_nvs g (some h)).2.password = p
      ∧ (read_nvs g (some h)).2.room_id = r ∧ (read_nvs g (some h)).2.device_id = d
      ∧ (h "bssid" = none → (read_nvs g (some h)).2.bssid_set = false) := by
  have ls2 : ¬ sizeof_ssid + 1 < s.length + 1 := by omega
  have lp2 : ¬ sizeof_password + 1 < p.length + 1 := by omega
  have lr2 : ¬ sizeof_room_id + 1 < r.length + 1 := by omega
  have ld2 : ¬ sizeof_device_id + 1 < d.length + 1 := by omega
  simp only [read_nvs, nvs_open, nvs_get_str, hs, hp, hr, hd, ls2, lp2, lr2, ld2, if_false,
    ne_eq, not_true_eq_false, Option.getD_some, true_and, gt_iff_lt, Nat.zero_lt_succ,
    not_true, and_self]
  refine ⟨?_, ?_, ?_, ?_, ?_, ?_⟩
  · split <;> rfl
  · split <;> rfl
  · split <;> rfl
  · split <;> rfl
  · split <;> rfl
  · intro hb
    simp [hb]

/-- A read that finds one of the four required keys missing returns false. -/
theorem read_nvs_missing (g : Globals) (flash : NvsFlash)
    (hm : ∀ h, flash = some h →
      h "ssid" = none ∨ h "password" = none ∨ h "room_id" = none ∨ h "device_id" = none) :
    (read_nvs g flash).1 = false := by
  cases flash with
  | none => simp [read_nvs, nvs_open]
  | some h =>
    have hm := hm h rfl
    simp only [read_nvs, nvs_open, nvs_get_str]
    cases hs : h "ssid" with
    | none => simp
    | some s =>
      cases hp : h "password" with
      | none => simp
      | some p =>
        cases hr : h "room_id" with
        | none => simp; split_ifs <;> rfl
        | some r =>
          cases hd : h "device_id" with
          | none => simp; split_ifs <;> rfl
          | some d => simp [hs, hp, hr, hd] at hm

/-- The entries a successful `write_nvs` leaves behind. -/
theorem write_nvs_ok (g : Globals) (flash : NvsFlash)
    (hb : g.bssid_set = true
      ∨ (nvs_open flash nvs_open_mode_t.NVS_READWRITE).2 "bssid" ≠ none) :
    (write_nvs g flash).1 = true
      ∧ ∃ h, (write_nvs g flash).2 = some h
        ∧ h "ssid" = some g.ssid ∧ h "password" = some g.password
        ∧ h "room_id" = some g.room_id ∧ h "device_id" = some g.device_id
        ∧ (g.bssid_set = false → h "bssid" = none)
        ∧ (g.bssid_set = true → h "bssid" = some (cstr (g.bssid ++ g.after_bssid))) := by
  obtain ⟨h0, ho⟩ : ∃ h0, nvs_open flash nvs_open_mode_t.NVS_READWRITE
      = (esp_err_t.ESP_OK, h0) := by
    cases flash <;> exact ⟨_, rfl⟩
  rw [ho] at hb
  cases hset : g.bssid_set with
  | true =>
    simp only [write_nvs, ho, nvs_set_str, nvs_commit, hset]
    simp
  | false =>
    have hk : ∃ v, h0 "bssid" = some v := by
      rcases hb with hb | hb
      · simp [hset] at hb
      · exact Option.ne_none_iff_exists'.mp hb
    obtain ⟨v, hv⟩ := hk
    have he : nvs_erase_key (fun k => if k = "password" then some g.password
        else if k = "ssid" then some g.ssid else h0 k) "bssid"
        = (esp_err_t.ESP_OK, fun k => if k = "bssid" then none
            else if k = "password" then some g.password
            else if k = "ssid" then some g.ssid else h0 k) := by
      simp [nvs_erase_key, hv]
    simp only [write_nvs, ho, nvs_set_str, nvs_commit, hset]
    simp [he]

/-- Saving and loading agree on the four required texts whenever the save gets past its
BSSID step: the identity carries a BSSID, or the store already holds one. -/
theorem write_read_nvs_roundtrip (g g0 : Globals) (flash : NvsFlash) (hf : g.fits)
    (hb : g.bssid_set = true
      ∨ (nvs_open flash nvs_open_mode_t.NVS_READWRITE).2 "bssid" ≠ none) :
    (write_nvs g flash).1 = true ∧ (read_nvs g0 (write_nvs g flash).2).1 = true
      ∧ (read_nvs g0 (write_nvs g flash).2).2.ssid = g.ssid
      ∧ (read_nvs g0 (write_nvs g flash).2).2.password = g.password
      ∧ (read_nvs g0 (write_nvs g flash).2).2.room_id = g.room_id
      ∧ (read_nvs g0 (write_nvs g flash).2).2.device_id = g.device_id := by
  obtain ⟨hw, h, hh, hs, hp, hr, hd, _, _⟩ := write_nvs_ok g flash hb
  obtain ⟨f1, f2, f3, f4⟩ := hf
  have k := read_nvs_present g0 h _ _ _ _ hs hp hr hd (by omega) (by omega) (by omega)
    (by omega)
  rw [hh]
  exact ⟨hw, k.1, k.2.1, k.2.2.1, k.2.2.2.1, k.2.2.2.2.1⟩

/-- C5. For every pair of identities, the first with `bssid_set = true` and the second with
`bssid_set = false` (texts fitting their arrays), and every prior store: both `write_nvs`
calls return true, the `bssid` key is gone from the store after the second, and a following
`read_nvs` returns true and reports `bssid_set = false`, whatever the globals held before
the read. -/
theorem C5_stale_bssid_erased (g1 g2 g0 : Globals) (flash : NvsFlash)
    (hb1 : g1.bssid_set = true) (hb2 : g2.bssid_set = false) (hf : g2.fits) :
    (write_nvs g1 flash).1 = true
      ∧ (write_nvs g2 (write_nvs g1 flash).2).1 = true
      ∧ (∃ h, (write_nvs g2 (write_nvs g1 flash).2).2 = some h ∧ h "bssid" = none)
      ∧ (read_nvs g0 (write_nvs g2 (write_nvs g1 flash).2).2).1 = true
      ∧ (read_nvs g0 (write_nvs g2 (write_nvs g1 flash).2).2).2.bssid_set = false := by
  obtain ⟨hw1, h1, hh1, _, _, _, _, _, hk1⟩ := write_nvs_ok g1 flash (Or.inl hb1)
  have hk1 := hk1 hb1
  have hb : g2.bssid_set = true
      ∨ (nvs_open (write_nvs g1 flash).2 nvs_open_mode_t.NVS_READWRITE).2 "bssid" ≠ none := by
    right
    rw [hh1]
    simp [nvs_open, hk1]
  obtain ⟨hw2, h2, hh2, hs, hp, hr, hd, hk2, _⟩ := write_nvs_ok g2 (write_nvs g1 flash).2 hb
  obtain ⟨f1, f2, f3, f4⟩ := hf
  have k := read_nvs_present g0 h2 _ _ _ _ hs hp hr hd (by omega) (by omega) (by omega)
    (by omega)
  refine ⟨hw1, hw2, ⟨h2, hh2, hk2 hb2⟩, ?_, ?_⟩
  · rw [hh2]; exact k.1
  · rw [hh2]; exact k.2.2.2.2.2 (hk2 hb2)

theorem C5_stale_bssid_erased_witness :
    (Globals.sampleBssid.bssid_set = true ∧ Globals.sample.bssid_set = false
      ∧ Globals.sample.fits)
    ∧ ((write_nvs Globals.sampleBssid none).1 = true
      ∧ (write_nvs Globals.sample (write_nvs Globals.sampleBssid none).2).1 = true
      ∧ (∃ h, (write_nvs Globals.sample (write_nvs Globals.sampleBssid none).2).2 = some h
          ∧ h "bssid" = none)
      ∧ (read_nvs Globals.boot
          (write_nvs Globals.sample (write_nvs Globals.sampleBssid none).2).2).1 = true
      ∧ (read_nvs Globals.boot
          (write_nvs Globals.sample (write_nvs Globals.sampleBssid none).2).2).2.bssid_set
          = false) :=
  ⟨by decide, C5_stale_bssid_erased Globals.sampleBssid Globals.sample Globals.boot none
    (by decide) (by decide) (by decide)⟩

/-- C8. For every store in which `room_id` or `device_id` is missing (in particular one
that holds only `ssid` and `password`), `read_nvs` returns false and `app_init` makes
exactly one mode call, `init_smartconfig_mode`; `init_working_mode` is not called. -/
theorem C8_partial_store_selects_provisioning (g : Globals) (h : NvsEntries)
    (hm : h "room_id" = none ∨ h "device_id" = none) :
    (read_nvs g (some h)).1 = false
      ∧ (app_init g (some h)).1 = [Call.init_smartconfig_mode]
      ∧ Call.init_working_mode ∉ (app_init g (some h)).1 := by
  have hread : (read_nvs g (some h)).1 = false :=
    read_nvs_missing g (some h) (fun h1 e => by
      cases e
      exact Or.inr (Or.inr hm))
  have happ : (app_init g (some h)).1 = [Call.init_smartconfig_mode] := by
    simp [app_init, hread]
  refine ⟨hread, happ, ?_⟩
  rw [happ]
  decide

theorem C8_partial_store_selects_provisioning_witness :
    (NvsEntries.onlyWifi "ssid" = some "home".toList
      ∧ NvsEntries.onlyWifi "password" = some "secret".toList
      ∧ NvsEntries.onlyWifi "room_id" = none ∧ NvsEntries.onlyWifi "device_id" = none)
    ∧ ((read_nvs Globals.boot (some NvsEntries.onlyWifi)).1 = false
      ∧ (app_init Globals.boot (some NvsEntries.onlyWifi)).1 = [Call.init_smartconfig_mode]
      ∧ Call.init_working_mode ∉ (app_init Globals.boot (some NvsEntries.onlyWifi)).1) :=
  ⟨by decide, C8_partial_store_selects_provisioning Globals.boot NvsEntries.onlyWifi
    (Or.inl (by decide))⟩

theorem cstr_cons (c : Char) (cs : List Char) :
    cstr (c :: cs) = if c = NUL then [] else c :: cstr cs := by
  by_cases hc : c = NUL <;> simp [cstr, List.takeWhile, hc]

theorem cstr_append_NUL : ∀ l r : List Char, cstr (l ++ NUL :: r) = cstr l
  | [], r => by simp [cstr_cons, cstr]
  | c :: cs, r => by
    rw [List.cons_append, cstr_cons, cstr_cons, cstr_append_NUL cs r]

theorem cstr_append_of_not_mem : ∀ l r : List Char, NUL ∉ l → cstr (l ++ r) = l ++ cstr r
  | [], r, _ => rfl
  | c :: cs, r, h => by
    have hc : c ≠ NUL := fun e => h (by simp [e])
    have ih := cstr_append_of_not_mem cs r (fun hm => h (List.mem_cons_of_mem _ hm))
    rw [List.cons_append, cstr_cons, if_neg hc, ih, List.cons_append]

theorem cstr_isPrefix (l : List Char) : cstr l <+: l :=
  List.takeWhile_prefix _

theorem NUL_not_mem_hexToken (upper : Bool) (t : Nat) : NUL ∉ hexToken upper t := by
  have key : ∀ d, d < 16 → hexDigitChar upper d ≠ NUL := by
    intro d hd
    interval_cases d <;> cases upper <;> decide
  have h5 := key (t / 16 ^ 5 % 16) (Nat.mod_lt _ (by norm_num))
  have h4 := key (t / 16 ^ 4 % 16) (Nat.mod_lt _ (by norm_num))
  have h3 := key (t / 16 ^ 3 % 16) (Nat.mod_lt _ (by norm_num))
  have h2 := key (t / 16 ^ 2 % 16) (Nat.mod_lt _ (by norm_num))
  have h1 := key (t / 16 % 16) (Nat.mod_lt _ (by norm_num))
  have h0 := key (t % 16) (Nat.mod_lt _ (by norm_num))
  have a0 : NUL ≠ '0' := by decide
  have a1 : NUL ≠ 'x' := by decide
  simp only [hexToken, List.mem_cons, List.mem_singleton, List.not_mem_nil, or_false, not_or]
  exact ⟨a0, a1, h5.symm, h4.symm, h3.symm, h2.symm, h1.symm, h0.symm⟩

theorem controllable_event_handler_no_0x (s : List Char) (h : ¬ "0x".toList <:+: s) :
    controllable_event_handler s = [] := by
  have hx : strstr s "0x".toList = none := (strstr_eq_none_iff _ _).mpr h
  simp only [controllable_event_handler, hx]
  split <;> rfl

namespace mode_working

/-- The buffer after a read of at most 128 bytes holds the string of those bytes. -/
theorem output_buffer_bytes (data stack : List Char) (hl : data.length ≤ 128) :
    output_buffer (ReadResult.bytes data) stack = cstr data := by
  have e : List.replicate (129 - data.length) NUL
      = NUL :: List.replicate (128 - data.length) NUL := by
    have : 129 - data.length = (128 - data.length) + 1 := by omega
    rw [this, List.replicate_succ]
  simp only [output_buffer, ReadResult.stored, e, List.append_assoc, List.cons_append]
  exact cstr_append_NUL _ _

theorem rtdb_listening_chunk_color (upper : Bool) (t : Nat) (ht : t < 2 ^ 24)
    (chunk stack : List Char) (hc : ColorChunk upper t chunk) (hl : chunk.length ≤ 128) :
    rtdb_listening_chunk stack (ReadResult.bytes chunk) = [Call.ledc_set_color t] := by
  obtain ⟨pre, post, hchunk, h0x, hnul, hnull, h30⟩ := hc
  have hlen : chunk.length = pre.length + 8 + (post.length + 1) := by
    rw [hchunk]; simp [hexToken_length]; omega
  have hd0 : ¬ (ReadResult.bytes chunk).data_len = 0 := by
    simp only [ReadResult.data_len]; omega
  have hd30 : ¬ (ReadResult.bytes chunk).data_len = 30 := by
    simp only [ReadResult.data_len]; omega
  have hq : DQUOTE ≠ NUL := by decide
  have hstr : cstr chunk = pre ++ hexToken upper t ++ DQUOTE :: cstr post := by
    rw [hchunk, List.append_assoc, cstr_append_of_not_mem _ _ hnul,
      cstr_append_of_not_mem _ _ (NUL_not_mem_hexToken upper t)]
    simp [cstr_cons, hq]
  have hnull2 : ¬ "null".toList <:+: pre ++ hexToken upper t ++ DQUOTE :: cstr post := by
    rw [← hstr]
    exact fun hi => hnull (hi.trans (cstr_isPrefix chunk).isInfix)
  have key := controllable_event_handler_hexToken upper t ht pre (cstr post) h0x hnull2
  rw [rtdb_listening_chunk, if_neg hd0, if_neg hd30, output_buffer_bytes _ _ hl, hstr, key]

theorem rtdb_listening_chunk_heartbeat (chunk stack : List Char) (h : chunk.length = 30) :
    rtdb_listening_chunk stack (ReadResult.bytes chunk) = [] := by
  simp [rtdb_listening_chunk, ReadResult.data_len, h]

theorem rtdb_listening_loop_append (stack : List Char) : ∀ xs ys : List ReadResult,
    rtdb_listening_loop stack (xs ++ ys)
      = rtdb_listening_loop stack xs ++ rtdb_listening_loop stack ys
  | [], ys => rfl
  | x :: xs, ys => by
    simp [rtdb_listening_loop, rtdb_listening_loop_append stack xs ys]

theorem rtdb_listening_loop_empty (stack : List Char) : ∀ n : Nat,
    rtdb_listening_loop stack (List.replicate n emptyRead) = []
  | 0 => rfl
  | n + 1 => by
    have ih := rtdb_listening_loop_empty stack n
    have h0 : rtdb_listening_chunk stack emptyRead = [] := by
      simp [rtdb_listening_chunk, emptyRead, ReadResult.data_len]
    rw [List.replicate_succ, rtdb_listening_loop, ih, h0]
    rfl

end mode_working

namespace mode_working

/-- The stream consumer on chunks that leave room for the terminator. For every pair of
24-bit colours `a` and `b`: on a connection that opens with status 200, whose first chunk
holds no `0x`, and whose reads are a keep-alive chunk (30 bytes), a chunk carrying `a`, a
keep-alive chunk, a chunk carrying `b`, the colour chunks at most 128 bytes long, with any
number of empty reads before, between and after them, `rtdb_listening_task` makes exactly
two calls, `ledc_set_color a` and then `ledc_set_color b`. -/
theorem rtdb_listening_task_colors_in_order (ua ub : Bool) (a b : Nat)
    (ha : a < 2 ^ 24) (hb : b < 2 ^ 24) (stack first alive1 alive2 chunkA chunkB : List Char)
    (content_length : Int) (n0 n1 n2 n3 n4 : Nat) (hcl : 0 ≤ content_length)
    (hfirst : ¬ "0x".toList <:+: first) (hfl : first.length ≤ 128)
    (h1 : alive1.length = 30) (h2 : alive2.length = 30)
    (hA : ColorChunk ua a chunkA) (hAl : chunkA.length ≤ 128)
    (hB : ColorChunk ub b chunkB) (hBl : chunkB.length ≤ 128) :
    rtdb_listening_task stack
        { open_ok := true, content_length := content_length, status_code := 200,
          first := ReadResult.bytes first,
          reads := List.replicate n0 emptyRead ++ ReadResult.bytes alive1
            :: (List.replicate n1 emptyRead ++ ReadResult.bytes chunkA
            :: (List.replicate n2 emptyRead ++ ReadResult.bytes alive2
            :: (List.replicate n3 emptyRead ++ ReadResult.bytes chunkB
            :: List.replicate n4 emptyRead))) }
      = [Call.ledc_set_color a, Call.ledc_set_color b] := by
  have hf : controllable_event_handler (output_buffer (ReadResult.bytes first) stack) = [] := by
    rw [output_buffer_bytes _ _ hfl]
    exact controllable_event_handler_no_0x _
      (fun hi => hfirst (hi.trans (cstr_isPrefix first).isInfix))
  have hcl2 : ¬ content_length < 0 := by omega
  simp only [rtdb_listening_task, hcl2, hf, rtdb_listening_loop_append, rtdb_listening_loop,
    rtdb_listening_loop_empty, rtdb_listening_chunk_heartbeat _ _ h1,
    rtdb_listening_chunk_heartbeat _ _ h2,
    rtdb_listening_chunk_color ua a ha chunkA stack hA hAl,
    rtdb_listening_chunk_color ub b hb chunkB stack hB hBl]
  simp

theorem rtdb_listening_task_colors_in_order_example :
    rtdb_listening_task []
        { open_ok := true, content_length := 0, status_code := 200,
          first := ReadResult.bytes sampleFirst,
          reads := List.replicate 1 emptyRead ++ ReadResult.bytes sampleKeepAlive
            :: (List.replicate 0 emptyRead
              ++ ReadResult.bytes (samplePre ++ hexToken true 0xFF0000 ++ DQUOTE :: samplePost)
            :: (List.replicate 2 emptyRead ++ ReadResult.bytes sampleKeepAlive
            :: (List.replicate 0 emptyRead
              ++ ReadResult.bytes (samplePre ++ hexToken false 0x00FF7F ++ DQUOTE :: samplePost)
            :: List.replicate 1 emptyRead))) }
      = [Call.ledc_set_color 0xFF0000, Call.ledc_set_color 0x00FF7F] :=
  rtdb_listening_task_colors_in_order true false 0xFF0000 0x00FF7F (by decide) (by decide) []
    sampleFirst sampleKeepAlive sampleKeepAlive _ _ 0 1 0 2 0 1 (by decide) (by decide)
    (by decide) (by decide) (by decide)
    ⟨samplePre, samplePost, rfl, by decide, by decide, by decide, by decide⟩ (by decide)
    ⟨samplePre, samplePost, rfl, by decide, by decide, by decide, by decide⟩ (by decide)

set_option maxRecDepth 100000 in
/-- C7, failing input: the chunk carrying the first colour is 129 bytes long, which the
read of the inner loop (`esp_http_client_read_response(client, output_buffer, 129)` into
`char output_buffer[129]`) accepts. It meets what the claim asks of a colour chunk, but it
leaves no terminator in the array, so `controllable_event_handler` reads on into the
memory behind it. When that memory holds `null`, the first colour is dropped and only the
second is applied; when a zero byte follows the array at once, both are applied. The first
read of the connection passes 128 and leaves the terminator in place. -/
theorem C7_full_read_drops_color :
    (fullChunk.length = 129 ∧ ColorChunk true 0xFF0000 fullChunk
      ∧ ColorChunk false 0x00FF7F shortChunk ∧ sampleKeepAlive.length = 30
      ∧ ¬ "0x".toList <:+: sampleFirst)
    ∧ rtdb_listening_task staleStack fullConnection = [Call.ledc_set_color 0x00FF7F]
    ∧ rtdb_listening_task staleStack fullConnection
        ≠ [Call.ledc_set_color 0xFF0000, Call.ledc_set_color 0x00FF7F]
    ∧ rtdb_listening_task [] fullConnection
        = [Call.ledc_set_color 0xFF0000, Call.ledc_set_color 0x00FF7F] := by
  refine ⟨⟨by decide, ⟨fullPre, fullPost, rfl, by decide, by decide, by decide, by decide⟩,
    ⟨samplePre, samplePost, rfl, by decide, by decide, by decide, by decide⟩, by decide,
    by decide⟩, ?_, ?_, ?_⟩ <;> decide

end mode_working

/-- C6, failing input: after two `IP_EVENT_STA_GOT_IP` events, in a row or with a
disconnect (reason 8, not a credential failure) between them, two instances of each
activity are running. The handles tested by the "safety check" are automatic variables,
`NULL` at every entry of the handler: the disconnect deletes nothing and the second event
creates both tasks again. -/
theorem C6_second_got_ip_duplicates_tasks :
    ((mode_working.deliver mode_working.Sched.init
        [mode_working.Event.IP_EVENT_STA_GOT_IP, mode_working.Event.IP_EVENT_STA_GOT_IP]).running
          TaskFn.rtdb_listening_task = 2
      ∧ (mode_working.deliver mode_working.Sched.init
        [mode_working.Event.IP_EVENT_STA_GOT_IP, mode_working.Event.IP_EVENT_STA_GOT_IP]).running
          TaskFn.run_when_wifi_connected_task = 2)
    ∧ ((mode_working.deliver mode_working.Sched.init
        [mode_working.Event.IP_EVENT_STA_GOT_IP,
          mode_working.Event.WIFI_EVENT_STA_DISCONNECTED 8,
          mode_working.Event.IP_EVENT_STA_GOT_IP]).running TaskFn.rtdb_listening_task = 2
      ∧ (mode_working.deliver mode_working.Sched.init
        [mode_working.Event.IP_EVENT_STA_GOT_IP,
          mode_working.Event.WIFI_EVENT_STA_DISCONNECTED 8,
          mode_working.Event.IP_EVENT_STA_GOT_IP]).running
          TaskFn.run_when_wifi_connected_task = 2) := by
  decide

theorem introduce_new_device_rejected (g : Globals) (x : Registration)
    (hs : x.status_code ≠ 200) : introduce_new_device g x = Except.ok (false, g) := by
  simp only [introduce_new_device, hs]
  split_ifs <;> rfl

theorem read_nvs_after_clear (g : Globals) (flash : NvsFlash) :
    (read_nvs g (clear_nvs_and_reset_task flash)).1 = false :=
  read_nvs_missing g _ (fun h e => by
    simp only [clear_nvs_and_reset_task, nvs_erase_all, Option.some.injEq] at e
    subst e
    exact Or.inl rfl)

/-- C9. For every registration answered with a status other than 200, whatever the
globals and the store hold: `introduce_new_device` returns false; the `CONNECTED_BIT`
branch of `smartconfig_task` makes exactly one call, `interrupt_hard_reset`, so `write_nvs`
is not called; and on the store the reset leaves behind, the `read_nvs` of the next boot
returns false and `app_init` selects `init_smartconfig_mode`. -/
theorem C9_rejected_registration_resets (g g0 : Globals) (flash : NvsFlash) (x : Registration)
    (hs : x.status_code ≠ 200) :
    introduce_new_device g x = Except.ok (false, g)
      ∧ ∃ p, smartconfig_task g flash x = Except.ok p
        ∧ p.calls = [Call.interrupt_hard_reset] ∧ Call.write_nvs ∉ p.calls
        ∧ (read_nvs g0 p.flash).1 = false
        ∧ (app_init g0 p.flash).1 = [Call.init_smartconfig_mode] := by
  have hi := introduce_new_device_rejected g x hs
  refine ⟨hi, ⟨[Call.interrupt_hard_reset], g, interrupt_hard_reset flash⟩, ?_, rfl, ?_, ?_, ?_⟩
  · simp only [smartconfig_task, hi]
  · show Call.write_nvs ∉ [Call.interrupt_hard_reset]
    decide
  · exact read_nvs_after_clear g0 flash
  · have hr : (read_nvs g0 (interrupt_hard_reset flash)).1 = false :=
      read_nvs_after_clear g0 flash
    simp [app_init, hr]

theorem C9_rejected_registration_resets_witness :
    Registration.rejected.status_code ≠ 200
      ∧ introduce_new_device Globals.sample Registration.rejected
          = Except.ok (false, Globals.sample)
      ∧ ∃ p, smartconfig_task Globals.sample (some NvsEntries.onlyWifi) Registration.rejected
          = Except.ok p
        ∧ p.calls = [Call.interrupt_hard_reset] ∧ Call.write_nvs ∉ p.calls
        ∧ (read_nvs Globals.boot p.flash).1 = false
        ∧ (app_init Globals.boot p.flash).1 = [Call.init_smartconfig_mode] :=
  ⟨by decide, C9_rejected_registration_resets Globals.sample Globals.boot
    (some NvsEntries.onlyWifi) Registration.rejected (by decide)⟩

/-- C10, failing input: a 200 response whose body has a colon and no double quote after
it. `introduce_new_device` does not return false: `strchr(start + 1, ...)` runs with
`start == NULL`, before `start` is tested. -/
theorem C10_unquoted_body_faults :
    introduce_new_device Globals.boot Registration.unquoted = Except.error Fault.invalid_read
      ∧ introduce_new_device Globals.boot Registration.unquoted
          ≠ Except.ok (false, Globals.boot) := by
  have h : introduce_new_device Globals.boot Registration.unquoted
      = Except.error Fault.invalid_read := rfl
  rw [h]
  exact ⟨rfl, fun e => by cases e⟩

theorem strchr_first (c : Char) (post : List Char) : ∀ body : List Char, c ∉ body →
    strchr (body ++ c :: post) c = some body.length
  | [], _ => by simp [strchr]
  | d :: ds, h => by
    have hd : ¬ d = c := fun e => h (by simp [e])
    have ih := strchr_first c post ds (fun hm => h (List.mem_cons_of_mem _ hm))
    simp [strchr, ih, hd]

theorem strchr_none (c : Char) : ∀ s : List Char, c ∉ s → strchr s c = none
  | [], _ => rfl
  | d :: ds, h => by
    have hd : ¬ d = c := fun e => h (by simp [e])
    have ih := strchr_none c ds (fun hm => h (List.mem_cons_of_mem _ hm))
    simp [strchr, ih, hd]

/-- A 200 response whose text has a pair of double quotes after the first colon: the call
returns true and `device_id` is the text between the quotes, cut to 32 bytes. -/
theorem introduce_new_device_accepts (g : Globals) (x : Registration)
    (a b id rest : List Char) (hw : 0 ≤ x.write_len) (hf : 0 ≤ x.fetch_len)
    (hs : x.status_code = 200)
    (hbody : cstr (x.body.take 64) = a ++ ':' :: (b ++ DQUOTE :: (id ++ DQUOTE :: rest)))
    (ha : ':' ∉ a) (hb : DQUOTE ∉ b) (hid : DQUOTE ∉ id) :
    introduce_new_device g x = Except.ok (true, { g with device_id := id.take 32 }) := by
  have hw2 : ¬ x.write_len < 0 := by omega
  have hf2 : ¬ x.fetch_len < 0 := by omega
  have h1 := strstr_singleton ':' (b ++ DQUOTE :: (id ++ DQUOTE :: rest)) a ha
  have h2 := strchr_first DQUOTE (id ++ DQUOTE :: rest) b hb
  have h3 := strchr_first DQUOTE rest id hid
  have d1 : List.drop (a.length + 1) (a ++ ':' :: (b ++ DQUOTE :: (id ++ DQUOTE :: rest)))
      = b ++ DQUOTE :: (id ++ DQUOTE :: rest) := by
    rw [List.drop_append_eq_append_drop]; simp
  have d2 : List.drop (a.length + 1 + b.length + 1)
      (a ++ ':' :: (b ++ DQUOTE :: (id ++ DQUOTE :: rest))) = id ++ DQUOTE :: rest := by
    rw [show a.length + 1 + b.length + 1 = (a.length + 1) + (b.length + 1) by omega,
      ← List.drop_drop, d1, List.drop_append_eq_append_drop]
    simp
  have d3 : List.drop (a.length + 1 + b.length + 1)
      (List.take (a.length + 1 + b.length + 1 + id.length)
        (a ++ ':' :: (b ++ DQUOTE :: (id ++ DQUOTE :: rest)))) = id := by
    rw [List.drop_take]
    rw [d2]
    simp
  simp only [introduce_new_device, hw2, hf2, hs, hbody, h1, d1, h2, d2, h3, d3, strncpy,
    sizeof_device_id]
  simp

/-- A 200 response whose text has no colon: the call returns false. -/
theorem introduce_new_device_no_colon (g : Globals) (x : Registration)
    (hc : ':' ∉ cstr (x.body.take 64)) :
    (introduce_new_device g x).toOption.map Prod.fst = some false := by
  have h1 : strstr (cstr (x.body.take 64)) [':'] = none :=
    (strstr_eq_none_iff _ _).mpr (fun hi => hc (hi.subset (by simp)))
  simp only [introduce_new_device, h1]
  split_ifs <;> rfl

/-- A 200 response whose text has exactly one double quote after the first colon: the
call returns false. -/
theorem introduce_new_device_one_quote (g : Globals) (x : Registration)
    (a b c : List Char) (hw : 0 ≤ x.write_len) (hf : 0 ≤ x.fetch_len)
    (hs : x.status_code = 200)
    (hbody : cstr (x.body.take 64) = a ++ ':' :: (b ++ DQUOTE :: c))
    (ha : ':' ∉ a) (hb : DQUOTE ∉ b) (hc : DQUOTE ∉ c) :
    introduce_new_device g x = Except.ok (false, g) := by
  have hw2 : ¬ x.write_len < 0 := by omega
  have hf2 : ¬ x.fetch_len < 0 := by omega
  have h1 := strstr_singleton ':' (b ++ DQUOTE :: c) a ha
  have h2 := strchr_first DQUOTE c b hb
  have h3 := strchr_none DQUOTE c hc
  have d1 : List.drop (a.length + 1) (a ++ ':' :: (b ++ DQUOTE :: c)) = b ++ DQUOTE :: c := by
    rw [List.drop_append_eq_append_drop]; simp
  have d2 : List.drop (a.length + 1 + b.length + 1) (a ++ ':' :: (b ++ DQUOTE :: c)) = c := by
    rw [show a.length + 1 + b.length + 1 = (a.length + 1) + (b.length + 1) by omega,
      ← List.drop_drop, d1, List.drop_append_eq_append_drop]
    simp
  simp only [introduce_new_device, hw2, hf2, hs, hbody, h1, d1, h2, d2, h3]
  simp

/-- A 200 response whose text has a colon and no double quote after the first one: the
call reads through `NULL + 1` instead of returning. -/
theorem introduce_new_device_no_quote (g : Globals) (x : Registration)
    (a b : List Char) (hw : 0 ≤ x.write_len) (hf : 0 ≤ x.fetch_len)
    (hs : x.status_code = 200) (hbody : cstr (x.body.take 64) = a ++ ':' :: b)
    (ha : ':' ∉ a) (hb : DQUOTE ∉ b) :
    introduce_new_device g x = Except.error Fault.invalid_read := by
  have hw2 : ¬ x.write_len < 0 := by omega
  have hf2 : ¬ x.fetch_len < 0 := by omega
  have h1 := strstr_singleton ':' b a ha
  have h2 := strchr_none DQUOTE b hb
  have d1 : List.drop (a.length + 1) (a ++ ':' :: b) = b := by
    rw [List.drop_append_eq_append_drop]; simp
  simp only [introduce_new_device, hw2, hf2, hs, hbody, h1, d1, h2]
  simp

/-- C14. For every payload in which the literal `null` occurs, `controllable_event_handler`
makes no call: `ledc_set_color` is not called, whatever else the payload holds, a
well-formed `0x` token followed by a double quote included. -/
theorem C14_null_marker_ignored (buffer : List Char) (h : "null".toList <:+: buffer) :
    controllable_event_handler buffer = [] := by
  have hsome : (strstr buffer "null".toList).isSome = true := by
    cases hn : strstr buffer "null".toList with
    | none => exact absurd h ((strstr_eq_none_iff _ _).mp hn)
    | some i => rfl
  simp only [controllable_event_handler, hsome, if_true]

theorem C14_null_marker_ignored_witness :
    "null".toList <:+: "\x7b\"color\":\"0x00FF00\",\"mode\":null\x7d".toList
      ∧ controllable_event_handler "\x7b\"color\":\"0x00FF00\",\"mode\":null\x7d".toList = [] :=
  ⟨by decide, C14_null_marker_ignored _ (by decide)⟩

theorem hex_color_to_uint32_not_0x (s : List Char) (h : ¬ "0x".toList <+: s) :
    hex_color_to_uint32 (some s) = 0 := by
  have hp : ¬ (s.getD 0 NUL = '0' ∧ s.getD 1 NUL = 'x') := by
    rintro ⟨h0, h1⟩
    apply h
    match s, h0, h1 with
    | [], h0, _ => exact absurd h0 (by decide)
    | [a], _, h1 => exact absurd (show NUL = 'x' from h1) (by decide)
    | a :: b :: r, h0, h1 =>
      simp only [List.getD_cons_zero, List.getD_cons_succ] at h0 h1
      subst h0; subst h1
      exact ⟨r, rfl⟩
  simp only [hex_color_to_uint32]
  rw [if_pos]
  by_contra hc
  exact hp ⟨by_contra (fun h0 => hc (Or.inl h0)), by_contra (fun h1 => hc (Or.inr h1))⟩

/-- C16. For every argument, `hex_color_to_uint32` returns a value in `0..0xFFFFFF`; it
returns 0 for `NULL` and for a string that does not begin with `0x`; for a string that
begins with `0x` it returns the value of the leading hexadecimal literal when that value
is at most `0xFFFFFF`, and 0 when it is larger, however large (the saturated conversion
included). -/
theorem C16_hex_color_to_uint32_range (hexColor : Option (List Char)) :
    hex_color_to_uint32 hexColor ≤ 0xFFFFFF
      ∧ (hexColor = none → hex_color_to_uint32 hexColor = 0)
      ∧ (∀ s, hexColor = some s → ¬ "0x".toList <+: s → hex_color_to_uint32 hexColor = 0)
      ∧ (∀ body, hexColor = some ('0' :: 'x' :: body) →
          hex_color_to_uint32 hexColor
            = if hexTokenValue ('0' :: 'x' :: body) ≤ 0xFFFFFF
              then hexTokenValue ('0' :: 'x' :: body) else 0) := by
  have h2 : ∀ s, ¬ "0x".toList <+: s → hex_color_to_uint32 (some s) = 0 :=
    hex_color_to_uint32_not_0x
  have h3 : ∀ body, hex_color_to_uint32 (some ('0' :: 'x' :: body))
      = if hexTokenValue ('0' :: 'x' :: body) ≤ 0xFFFFFF
        then hexTokenValue ('0' :: 'x' :: body) else 0 := by
    intro body
    rw [hex_color_to_uint32_0x]
    split_ifs <;> first | rfl | omega
  refine ⟨?_, ?_, ?_, ?_⟩
  · cases hexColor with
    | none => simp [hex_color_to_uint32]
    | some s =>
      by_cases hp : "0x".toList <+: s
      · obtain ⟨body, rfl⟩ := hp
        show hex_color_to_uint32 (some ('0' :: 'x' :: body)) ≤ 0xFFFFFF
        rw [h3]
        split_ifs <;> omega
      · rw [h2 s hp]
        omega
  · rintro rfl
    rfl
  · rintro s rfl hp
    exact h2 s hp
  · rintro body rfl
    exact h3 body

theorem C16_hex_color_to_uint32_range_witness :
    hex_color_to_uint32 (some "0x7FFFFFFFFF".toList) ≤ 0xFFFFFF
      ∧ hex_color_to_uint32 none = 0
      ∧ hex_color_to_uint32 (some "#FF0000".toList) = 0
      ∧ hex_color_to_uint32 (some "0x00ff7f;".toList) = 0x00FF7F
      ∧ hex_color_to_uint32 (some "0x7FFFFFFFFF".toList) = 0 :=
  ⟨(C16_hex_color_to_uint32_range (some "0x7FFFFFFFFF".toList)).1,
    (C16_hex_color_to_uint32_range none).2.1 rfl,
    (C16_hex_color_to_uint32_range (some "#FF0000".toList)).2.2.1 _ rfl (by decide),
    (C16_hex_color_to_uint32_range (some "0x00ff7f;".toList)).2.2.2 "00ff7f;".toList rfl,
    (C16_hex_color_to_uint32_range (some "0x7FFFFFFFFF".toList)).2.2.2 "7FFFFFFFFF".toList rfl⟩

namespace mode_smartconfig

/-- C13. For every disconnect event delivered to the `wifi_event_handler` of
`mode_smartconfig.c`: when the reason is `WIFI_REASON_AUTH_FAIL` or
`WIFI_REASON_4WAY_HANDSHAKE_TIMEOUT`, the handler makes exactly one recorded call,
`interrupt_hard_reset` (so neither `esp_wifi_connect` nor `write_nvs`), and leaves
`CONNECTED_BIT` cleared, the bit whose branch in `smartconfig_task` holds the only call of
`write_nvs`; for every other reason it makes exactly one recorded call, `esp_wifi_connect`,
and creates no reset task. -/
theorem C13_disconnect_reason (g : Globals) (bits : EventBits) (reason : Nat) :
    ((reason = mode_working.WIFI_REASON_AUTH_FAIL
        ∨ reason = mode_working.WIFI_REASON_4WAY_HANDSHAKE_TIMEOUT) →
      (wifi_event_handler g bits (Event.WIFI_EVENT_STA_DISCONNECTED reason)).calls
          = [Call.interrupt_hard_reset]
        ∧ Call.esp_wifi_connect ∉
          (wifi_event_handler g bits (Event.WIFI_EVENT_STA_DISCONNECTED reason)).calls
        ∧ Call.write_nvs ∉
          (wifi_event_handler g bits (Event.WIFI_EVENT_STA_DISCONNECTED reason)).calls
        ∧ (wifi_event_handler g bits
            (Event.WIFI_EVENT_STA_DISCONNECTED reason)).bits.CONNECTED_BIT = false)
    ∧ (¬ (reason = mode_working.WIFI_REASON_AUTH_FAIL
          ∨ reason = mode_working.WIFI_REASON_4WAY_HANDSHAKE_TIMEOUT) →
      (wifi_event_handler g bits (Event.WIFI_EVENT_STA_DISCONNECTED reason)).calls
          = [Call.esp_wifi_connect]
        ∧ Call.interrupt_hard_reset ∉
          (wifi_event_handler g bits (Event.WIFI_EVENT_STA_DISCONNECTED reason)).calls
        ∧ (wifi_event_handler g bits
            (Event.WIFI_EVENT_STA_DISCONNECTED reason)).created = []) := by
  constructor
  · intro h
    have hc : mode_working.WIFI_REASON_4WAY_HANDSHAKE_TIMEOUT = reason
        ∨ mode_working.WIFI_REASON_AUTH_FAIL = reason := by
      rcases h with h | h
      · exact Or.inr h.symm
      · exact Or.inl h.symm
    have e : wifi_event_handler g bits (Event.WIFI_EVENT_STA_DISCONNECTED reason)
        = { globals := g, bits := { bits with CONNECTED_BIT := false },
            created := [TaskFn.clear_nvs_and_reset_task],
            calls := [Call.interrupt_hard_reset] } := by
      simp only [wifi_event_handler, if_pos hc]
    rw [e]
    have n1 : Call.esp_wifi_connect ∉ [Call.interrupt_hard_reset] := by decide
    have n2 : Call.write_nvs ∉ [Call.interrupt_hard_reset] := by decide
    exact ⟨rfl, n1, n2, rfl⟩
  · intro h
    have hc : ¬ (mode_working.WIFI_REASON_4WAY_HANDSHAKE_TIMEOUT = reason
        ∨ mode_working.WIFI_REASON_AUTH_FAIL = reason) := by
      rintro (h1 | h1)
      · exact h (Or.inr h1.symm)
      · exact h (Or.inl h1.symm)
    have e : wifi_event_handler g bits (Event.WIFI_EVENT_STA_DISCONNECTED reason)
        = { globals := g, bits := { bits with CONNECTED_BIT := false }, created := [],
            calls := [Call.esp_wifi_connect] } := by
      simp only [wifi_event_handler, if_neg hc]
    rw [e]
    have n1 : Call.interrupt_hard_reset ∉ [Call.esp_wifi_connect] := by decide
    exact ⟨rfl, n1, rfl⟩

theorem C13_disconnect_reason_witness :
    (wifi_event_handler Globals.sample ⟨true, false⟩
        (Event.WIFI_EVENT_STA_DISCONNECTED 202)).calls = [Call.interrupt_hard_reset]
      ∧ (wifi_event_handler Globals.sample ⟨true, false⟩
        (Event.WIFI_EVENT_STA_DISCONNECTED 15)).calls = [Call.interrupt_hard_reset]
      ∧ (wifi_event_handler Globals.sample ⟨true, false⟩
        (Event.WIFI_EVENT_STA_DISCONNECTED 8)).calls = [Call.esp_wifi_connect] :=
  ⟨((C13_disconnect_reason Globals.sample ⟨true, false⟩ 202).1 (Or.inl rfl)).1,
    ((C13_disconnect_reason Globals.sample ⟨true, false⟩ 15).1 (Or.inr rfl)).1,
    ((C13_disconnect_reason Globals.sample ⟨true, false⟩ 8).2 (by decide)).1⟩

end mode_smartconfig

theorem fmt_d_length (n : Int) (hlo : -2 ^ 31 ≤ n) (hhi : n < 2 ^ 31) :
    (fmt_d n).length ≤ 11 := by
  have hb : n.natAbs < 10 ^ 10 := by omega
  have hd : (Nat.toDigits 10 n.natAbs).length ≤ 10 :=
    Nat.toDigitsCore_length 10 (by norm_num) _ _ 10 hb (by norm_num)
  unfold fmt_d
  split_ifs
  · simp only [List.length_cons]; omega
  · omega

theorem snprintf_fits (size : Nat) (text : List Char) (h : text.length < size) :
    snprintf size text = text := by
  unfold snprintf
  exact List.take_of_length_le (by omega)

namespace mode_working

/-- C11, as stated, fails: for the reading 23 °C, 45 %, the body of the request is not
`{"temperature":23,"humidity":45}`; the keys carry their units and the format has
blanks. -/
theorem C11_body_counterexample :
    Cycle.accepted.reading.status = 0
      ∧ run_when_wifi_connected_task sampleRoot Globals.sample Cycle.accepted
          = [Effect.http
              { url := "https://example.firebaseio.com/room-1/devices_map/-Ndev/sensors.json".toList,
                method := esp_http_client_method_t.HTTP_METHOD_PATCH,
                content_type := "application/json".toList,
                post_field := "\x7b \"temperature(".toList ++ [Char.ofNat 0xC2, Char.ofNat 0xB0]
                  ++ "C)\" : 23 , \"humidity(%)\" : 45 \x7d".toList }]
      ∧ jsonString Cycle.accepted.reading ≠ "\x7b\"temperature\":23,\"humidity\":45\x7d".toList := by
  decide

/-- C11, amended. For every valid reading (status 0) with temperature `t` and humidity `h`
(any `int`), and a root URL with which the path fits `sensors_url`, the pass through the
loop sends exactly one request: a PATCH with `Content-Type: application/json` to
`root/roomId/devices_map/deviceId/sensors.json`, whose body is exactly
`{ "temperature(°C)" : t , "humidity(%)" : h }`, with `t` and `h` in decimal. -/
theorem C11_publish_request (DB_ROOT_URL : List Char) (g : Globals) (c : Cycle)
    (hs : c.reading.status = 0)
    (ht : -2 ^ 31 ≤ c.reading.temperature ∧ c.reading.temperature < 2 ^ 31)
    (hh : -2 ^ 31 ≤ c.reading.humidity ∧ c.reading.humidity < 2 ^ 31)
    (hurl : DB_ROOT_URL.length + g.room_id.length + g.device_id.length + 27 < 182) :
    run_when_wifi_connected_task DB_ROOT_URL g c
      = Effect.http
          { url := DB_ROOT_URL ++ "/".toList ++ g.room_id ++ "/devices_map/".toList
              ++ g.device_id ++ "/sensors.json".toList,
            method := esp_http_client_method_t.HTTP_METHOD_PATCH,
            content_type := "application/json".toList,
            post_field := "\x7b \"temperature(".toList ++ [Char.ofNat 0xC2, Char.ofNat 0xB0]
              ++ "C)\" : ".toList ++ fmt_d c.reading.temperature
              ++ " , \"humidity(%)\" : ".toList ++ fmt_d c.reading.humidity
              ++ " \x7d".toList }
        :: (if c.status_code = 401 then [Effect.call Call.interrupt_hard_reset] else []) := by
  have l1 := fmt_d_length _ ht.1 ht.2
  have l2 := fmt_d_length _ hh.1 hh.2
  have hu : sensors_url DB_ROOT_URL g = DB_ROOT_URL ++ "/".toList ++ g.room_id
      ++ "/devices_map/".toList ++ g.device_id ++ "/sensors.json".toList := by
    unfold sensors_url
    apply snprintf_fits
    simp only [List.length_append]
    have e1 : "/".toList.length = 1 := rfl
    have e2 : "/devices_map/".toList.length = 13 := rfl
    have e3 : "/sensors.json".toList.length = 13 := rfl
    omega
  have hj : jsonString c.reading = "\x7b \"temperature(".toList
      ++ [Char.ofNat 0xC2, Char.ofNat 0xB0] ++ "C)\" : ".toList ++ fmt_d c.reading.temperature
      ++ " , \"humidity(%)\" : ".toList ++ fmt_d c.reading.humidity ++ " \x7d".toList := by
    unfold jsonString
    apply snprintf_fits
    simp only [List.length_append, List.length_cons, List.length_nil]
    have e1 : "\x7b \"temperature(".toList.length = 15 := rfl
    have e2 : "C)\" : ".toList.length = 6 := rfl
    have e3 : " , \"humidity(%)\" : ".toList.length = 19 := rfl
    have e4 : " \x7d".toList.length = 2 := rfl
    omega
  have hs2 : ¬ c.reading.status ≠ 0 := by simp [hs]
  simp only [run_when_wifi_connected_task, if_neg hs2, hu, hj]
  split_ifs <;> rfl

theorem C11_publish_request_witness :
    run_when_wifi_connected_task sampleRoot Globals.sample Cycle.accepted
      = Effect.http
          { url := sampleRoot ++ "/".toList ++ Globals.sample.room_id ++ "/devices_map/".toList
              ++ Globals.sample.device_id ++ "/sensors.json".toList,
            method := esp_http_client_method_t.HTTP_METHOD_PATCH,
            content_type := "application/json".toList,
            post_field := "\x7b \"temperature(".toList ++ [Char.ofNat 0xC2, Char.ofNat 0xB0]
              ++ "C)\" : ".toList ++ fmt_d Cycle.accepted.reading.temperature
              ++ " , \"humidity(%)\" : ".toList ++ fmt_d Cycle.accepted.reading.humidity
              ++ " \x7d".toList }
        :: (if Cycle.accepted.status_code = 401 then [Effect.call Call.interrupt_hard_reset]
            else []) :=
  C11_publish_request sampleRoot Globals.sample Cycle.accepted (by decide)
    (by decide) (by decide) (by decide)

end mode_working

namespace mode_working

theorem Sys.run_add (root : List Char) (g : Globals) : ∀ (m n : Nat) (s : Sys),
    Sys.run root g (m + n) s = Sys.run root g n (Sys.run root g m s)
  | 0, n, s => by simp [Sys.run]
  | m + 1, n, s => by
    rw [Nat.add_right_comm, Sys.run, Sys.run, Sys.run_add root g m n]

theorem Sys.step_restarted (root : List Char) (g : Globals) (s : Sys)
    (h : s.restarted = true) : Sys.step root g s = s := by
  simp [Sys.step, h]

theorem Sys.run_restarted (root : List Char) (g : Globals) : ∀ (n : Nat) (s : Sys),
    s.restarted = true → Sys.run root g n s = s
  | 0, _, _ => rfl
  | n + 1, s, h => by
    rw [Sys.run, Sys.step_restarted root g s h, Sys.run_restarted root g n s h]

/-- A pass that does not publish, or whose request is not answered with 401, does not
call `interrupt_hard_reset`. -/
theorem run_when_wifi_connected_task_no_reset (root : List Char) (g : Globals) (c : Cycle)
    (h : c.reading.status ≠ 0 ∨ c.status_code ≠ 401) :
    Effect.call Call.interrupt_hard_reset ∉ run_when_wifi_connected_task root g c := by
  unfold run_when_wifi_connected_task
  by_cases hs : c.reading.status ≠ 0
  · simp [hs]
  · have h4 : c.status_code ≠ 401 := h.resolve_left hs
    simp [hs, h4]

/-- A pass whose request is answered with 401: the request, then `interrupt_hard_reset`,
once. -/
theorem run_when_wifi_connected_task_revoked (root : List Char) (g : Globals) (c : Cycle)
    (hs : c.reading.status = 0) (h401 : c.status_code = 401) :
    run_when_wifi_connected_task root g c
      = [Effect.http
          { url := sensors_url root g,
            method := esp_http_client_method_t.HTTP_METHOD_PATCH,
            content_type := "application/json".toList,
            post_field := jsonString c.reading },
        Effect.call Call.interrupt_hard_reset] := by
  simp [run_when_wifi_connected_task, hs, h401]

/-- The passes before the first 401: the publisher runs them one per step. -/
theorem Sys.run_passes (root : List Char) (g : Globals) (flash : NvsFlash) :
    ∀ (pre rest : List Cycle) (log : List Effect),
    (∀ x ∈ pre, x.reading.status ≠ 0 ∨ x.status_code ≠ 401) →
    Sys.run root g pre.length
        { flash := flash, cycles := pre ++ rest, resets := [], restarted := false,
          aborted := false, log := log }
      = { flash := flash, cycles := rest, resets := [], restarted := false,
          aborted := false,
          log := log ++ pre.flatMap (run_when_wifi_connected_task root g) }
  | [], rest, log, _ => by simp [Sys.run]
  | x :: xs, rest, log, h => by
    have hx := run_when_wifi_connected_task_no_reset root g x (h x (by simp))
    have ih := Sys.run_passes root g flash xs rest
      (log ++ run_when_wifi_connected_task root g x) (fun y hy => h y (by simp [hy]))
    simp only [List.length_cons, Sys.run, List.cons_append]
    have hstep : Sys.step root g
        { flash := flash, cycles := x :: (xs ++ rest), resets := [], restarted := false,
          aborted := false, log := log }
        = { flash := flash, cycles := xs ++ rest, resets := [], restarted := false,
            aborted := false, log := log ++ run_when_wifi_connected_task root g x } := by
      simp [Sys.step, hx]
    rw [hstep, ih]
    simp [List.flatMap_cons, List.append_assoc]

/-- The reset task, once created, runs its five statements to the restart. -/
theorem Sys.run_reset (root : List Char) (g : Globals) (flash : NvsFlash)
    (rest : List Cycle) (log : List Effect) :
    Sys.run root g 5
        { flash := flash, cycles := rest, resets := [ResetPc.nvs_open], restarted := false,
          aborted := false, log := log }
      = { flash := clear_nvs_and_reset_task flash, cycles := rest,
          resets := [ResetPc.esp_restart], restarted := true, aborted := false,
          log := log ++ [Effect.call Call.esp_restart] } := by
  cases flash <;> rfl

end mode_working

namespace mode_working

/-- The publisher up to and including the restart that follows the first 401. -/
theorem Sys.run_to_restart (root : List Char) (g : Globals) (flash : NvsFlash)
    (pre post : List Cycle) (c : Cycle) (fuel : Nat)
    (hpre : ∀ x ∈ pre, x.reading.status ≠ 0 ∨ x.status_code ≠ 401)
    (hs : c.reading.status = 0) (h401 : c.status_code = 401)
    (hfuel : pre.length + 6 ≤ fuel) :
    Sys.run root g fuel (Sys.init flash (pre ++ c :: post))
      = { flash := clear_nvs_and_reset_task flash, cycles := post,
          resets := [ResetPc.esp_restart], restarted := true, aborted := false,
          log := pre.flatMap (run_when_wifi_connected_task root g)
            ++ run_when_wifi_connected_task root g c ++ [Effect.call Call.esp_restart] } := by
  obtain ⟨k, rfl⟩ : ∃ k, fuel = pre.length + (1 + (5 + k)) := ⟨fuel - (pre.length + 6), by omega⟩
  have hc := run_when_wifi_connected_task_revoked root g c hs h401
  have hmem : Effect.call Call.interrupt_hard_reset ∈ run_when_wifi_connected_task root g c := by
    rw [hc]; simp
  rw [Sys.run_add, Sys.init, Sys.run_passes root g flash pre (c :: post) [] hpre, Sys.run_add]
  have hstep : Sys.run root g 1
      { flash := flash, cycles := c :: post, resets := [], restarted := false,
        aborted := false, log := [] ++ pre.flatMap (run_when_wifi_connected_task root g) }
      = { flash := flash, cycles := post, resets := [ResetPc.nvs_open],
          restarted := false, aborted := false,
          log := pre.flatMap (run_when_wifi_connected_task root g)
            ++ run_when_wifi_connected_task root g c } := by
    simp [Sys.run, Sys.step, hmem]
  rw [hstep, Sys.run_add, Sys.run_reset, Sys.run_restarted _ _ _ _ rfl]

/-- C12. For every run of the telemetry publisher under the scheduler, on every partition
and whatever the later passes would meet: once a request is answered with 401,
`interrupt_hard_reset` is called in that pass; the reset task it creates runs to
`esp_restart`; in the whole run `interrupt_hard_reset` is called exactly once; after the
call the log holds the restart only, no request; and the passes that would follow are never
made. -/
theorem C12_revoked_resets_once (root : List Char) (g : Globals) (flash : NvsFlash)
    (pre post : List Cycle) (c : Cycle) (fuel : Nat)
    (hpre : ∀ x ∈ pre, x.reading.status ≠ 0 ∨ x.status_code ≠ 401)
    (hs : c.reading.status = 0) (h401 : c.status_code = 401)
    (hfuel : pre.length + 6 ≤ fuel) :
    (Sys.run root g fuel (Sys.init flash (pre ++ c :: post))).restarted = true
      ∧ (Sys.run root g fuel (Sys.init flash (pre ++ c :: post))).log
          = pre.flatMap (run_when_wifi_connected_task root g)
            ++ [Effect.http
                  { url := sensors_url root g,
                    method := esp_http_client_method_t.HTTP_METHOD_PATCH,
                    content_type := "application/json".toList,
                    post_field := jsonString c.reading },
                Effect.call Call.interrupt_hard_reset, Effect.call Call.esp_restart]
      ∧ (Sys.run root g fuel (Sys.init flash (pre ++ c :: post))).log.count
          (Effect.call Call.interrupt_hard_reset) = 1
      ∧ (Sys.run root g fuel (Sys.init flash (pre ++ c :: post))).cycles = post := by
  have hrun := Sys.run_to_restart root g flash pre post c fuel hpre hs h401 hfuel
  have hc := run_when_wifi_connected_task_revoked root g c hs h401
  have hnone : List.count (Effect.call Call.interrupt_hard_reset)
      (pre.flatMap (run_when_wifi_connected_task root g)) = 0 := by
    rw [List.count_eq_zero]
    intro hm
    obtain ⟨x, hx, hxm⟩ := List.mem_flatMap.mp hm
    exact run_when_wifi_connected_task_no_reset root g x (hpre x hx) hxm
  rw [hrun, hc]
  refine ⟨rfl, by simp, ?_, rfl⟩
  simp only [List.append_assoc, List.count_append, hnone]
  simp [List.count_cons]

theorem C12_revoked_resets_once_witness :
    (Sys.run sampleRoot Globals.sample 8
        (Sys.init (some NvsEntries.onlyWifi)
          ([Cycle.accepted, Cycle.failed] ++ Cycle.revoked :: [Cycle.accepted]))).restarted = true
      ∧ (Sys.run sampleRoot Globals.sample 8
        (Sys.init (some NvsEntries.onlyWifi)
          ([Cycle.accepted, Cycle.failed] ++ Cycle.revoked :: [Cycle.accepted]))).log
          = [Cycle.accepted, Cycle.failed].flatMap
              (run_when_wifi_connected_task sampleRoot Globals.sample)
            ++ [Effect.http
                  { url := sensors_url sampleRoot Globals.sample,
                    method := esp_http_client_method_t.HTTP_METHOD_PATCH,
                    content_type := "application/json".toList,
                    post_field := jsonString Cycle.revoked.reading },
                Effect.call Call.interrupt_hard_reset, Effect.call Call.esp_restart]
      ∧ (Sys.run sampleRoot Globals.sample 8
        (Sys.init (some NvsEntries.onlyWifi)
          ([Cycle.accepted, Cycle.failed] ++ Cycle.revoked :: [Cycle.accepted]))).log.count
          (Effect.call Call.interrupt_hard_reset) = 1
      ∧ (Sys.run sampleRoot Globals.sample 8
        (Sys.init (some NvsEntries.onlyWifi)
          ([Cycle.accepted, Cycle.failed] ++ Cycle.revoked :: [Cycle.accepted]))).cycles
          = [Cycle.accepted] :=
  C12_revoked_resets_once sampleRoot Globals.sample (some NvsEntries.onlyWifi)
    [Cycle.accepted, Cycle.failed] [Cycle.accepted] Cycle.revoked 8 (by decide) (by decide)
    (by decide) (by decide)

end mode_working

theorem clear_nvs_and_reset_step_ok (flash : NvsFlash) (pc : ResetPc) :
    (clear_nvs_and_reset_step flash pc).1 = esp_err_t.ESP_OK := by
  cases pc <;> cases flash <;> rfl

/-- The statements of the reset task, run one after the other, are the task. -/
theorem clear_nvs_and_reset_steps (flash : NvsFlash) :
    (clear_nvs_and_reset_step
      (clear_nvs_and_reset_step flash ResetPc.nvs_open).2.1 ResetPc.nvs_erase_all).2.1
      = clear_nvs_and_reset_task flash := by
  cases flash <;> rfl

theorem ResetPc.index_le (pc : ResetPc) : pc.index ≤ 4 := by
  cases pc <;> decide

theorem ResetRace.init_inv (flash : NvsFlash) : (ResetRace.init flash).Inv 0 := by
  refine ⟨rfl, ?_, ?_, ?_, ?_, ?_⟩ <;> simp [ResetRace.init, ResetPc.index]

theorem clear_nvs_and_reset_step_next (flash : NvsFlash) (pc next : ResetPc)
    (h : (clear_nvs_and_reset_step flash pc).2.2 = some next) :
    next.index = pc.index + 1
      ∧ (2 ≤ next.index → (2 ≤ pc.index → flash = some NvsEntries.empty) →
          (clear_nvs_and_reset_step flash pc).2.1 = some NvsEntries.empty) := by
  cases pc <;> simp only [clear_nvs_and_reset_step, Option.some.injEq, reduceCtorEq] at h <;>
    subst h <;> simp [clear_nvs_and_reset_step, ResetPc.index, nvs_erase_all]

theorem clear_nvs_and_reset_step_last (flash : NvsFlash) (pc : ResetPc)
    (h : (clear_nvs_and_reset_step flash pc).2.2 = none) :
    pc.index = 4 ∧ (clear_nvs_and_reset_step flash pc).2.1 = flash := by
  cases pc <;> simp only [clear_nvs_and_reset_step, reduceCtorEq] at h
  exact ⟨rfl, rfl⟩

theorem clear_nvs_and_reset_step_empty (pc : ResetPc) :
    (clear_nvs_and_reset_step (some NvsEntries.empty) pc).2.1 = some NvsEntries.empty := by
  cases pc <;> rfl

theorem ResetRace.step_running (flash : NvsFlash) (first second : ResetPc)
    (results : List esp_err_t) (pick_first : Bool) :
    ResetRace.step { flash := flash, first := first, second := second, results := results,
                     aborted := false, restarts := 0 } pick_first
      = match (clear_nvs_and_reset_step flash
          (if pick_first then first else second)).2.2 with
        | none =>
          { flash := (clear_nvs_and_reset_step flash
              (if pick_first then first else second)).2.1,
            first := first, second := second, results := results ++ [esp_err_t.ESP_OK],
            aborted := false, restarts := 1 }
        | some next =>
          if pick_first then
            { flash := (clear_nvs_and_reset_step flash first).2.1, first := next,
              second := second, results := results ++ [esp_err_t.ESP_OK], aborted := false,
              restarts := 0 }
          else
            { flash := (clear_nvs_and_reset_step flash second).2.1, first := first,
              second := next, results := results ++ [esp_err_t.ESP_OK], aborted := false,
              restarts := 0 } := by
  cases pick_first <;> simp [ResetRace.step, clear_nvs_and_reset_step_ok]

theorem ResetRace.step_inv (r : ResetRace) (n : Nat) (pick_first : Bool) (h : r.Inv n) :
    (r.step pick_first).Inv (n + 1) := by
  obtain ⟨flash, first, second, results, aborted, restarts⟩ := r
  obtain ⟨ha, hr, hle, hn, hf1, hf2⟩ := h
  simp only at ha hr hle hn hf1 hf2
  subst ha
  by_cases h0 : restarts = 0
  · subst h0
    have hn := hn rfl
    have hres : ∀ e ∈ results ++ [esp_err_t.ESP_OK], e = esp_err_t.ESP_OK := by
      intro e he
      rcases List.mem_append.mp he with he | he
      · exact hr e he
      · simpa using he
    rw [ResetRace.step_running]
    cases hnext : (clear_nvs_and_reset_step flash
        (if pick_first = true then first else second)).2.2 with
    | none =>
      unfold ResetRace.Inv
      dsimp only
      obtain ⟨h4, hfl⟩ := clear_nvs_and_reset_step_last _ _ hnext
      have hempty : flash = some NvsEntries.empty := by
        apply hf2
        cases pick_first
        · right; simp only [Bool.false_eq_true, if_false] at h4; omega
        · left; simp only [if_true] at h4; omega
      simp only [hfl]
      exact ⟨trivial, hres, by omega, by omega, fun _ => hempty, fun _ => hempty⟩
    | some next =>
      obtain ⟨hidx, hfl⟩ := clear_nvs_and_reset_step_next _ _ _ hnext
      unfold ResetRace.Inv
      cases pick_first
      · simp only [Bool.false_eq_true, if_false] at hidx hfl ⊢
        refine ⟨trivial, hres, by omega, fun _ => by omega, fun hc => by simp at hc, ?_⟩
        rintro (h2 | h2)
        · have he := hf2 (Or.inl h2)
          subst he
          exact clear_nvs_and_reset_step_empty second
        · exact hfl h2 (fun h3 => hf2 (Or.inr h3))
      · simp only [if_true] at hidx hfl ⊢
        refine ⟨trivial, hres, by omega, fun _ => by omega, fun hc => by simp at hc, ?_⟩
        rintro (h2 | h2)
        · exact hfl h2 (fun h3 => hf2 (Or.inl h3))
        · have he := hf2 (Or.inr h2)
          subst he
          exact clear_nvs_and_reset_step_empty first
  · have h1 : restarts = 1 := by omega
    subst h1
    have hcond : (1 : Nat) ≠ 0 ∨ false = true := Or.inl (by decide)
    simp only [ResetRace.step, if_pos hcond]
    exact ⟨rfl, hr, hle, fun hc => by simp at hc, hf1, hf2⟩

theorem ResetRace.run_inv : ∀ (schedule : List Bool) (r : ResetRace) (n : Nat), r.Inv n →
    (schedule.foldl ResetRace.step r).Inv (n + schedule.length)
  | [], r, n, h => by simpa using h
  | b :: bs, r, n, h => by
    have ih := ResetRace.run_inv bs (r.step b) (n + 1) (ResetRace.step_inv r n b h)
    rw [List.foldl_cons, List.length_cons, show n + (bs.length + 1) = n + 1 + bs.length by omega]
    exact ih

/-- C15. Two calls of `interrupt_hard_reset` in quick succession create two instances of
`clear_nvs_and_reset_task`. Under every schedule of the two tasks on every partition: each
checked call (`nvs_open`, `nvs_erase_all`, `nvs_commit`) yields `ESP_OK`, the erase of the
namespace the other task has already emptied included, so no `ESP_ERROR_CHECK` aborts; at
most one `esp_restart` is executed; and once nine statements have been scheduled, exactly
one has been, on an empty namespace. -/
theorem C15_double_reset_restarts_once (flash : NvsFlash) (schedule : List Bool) :
    (ResetRace.run flash schedule).aborted = false
      ∧ (∀ e ∈ (ResetRace.run flash schedule).results, e = esp_err_t.ESP_OK)
      ∧ (nvs_erase_all NvsEntries.empty).1 = esp_err_t.ESP_OK
      ∧ (ResetRace.run flash schedule).restarts ≤ 1
      ∧ (9 ≤ schedule.length →
          (ResetRace.run flash schedule).restarts = 1
            ∧ (ResetRace.run flash schedule).flash = some NvsEntries.empty) := by
  have h := ResetRace.run_inv schedule (ResetRace.init flash) 0 (ResetRace.init_inv flash)
  obtain ⟨ha, hr, hle, hn, hf1, _⟩ := h
  refine ⟨ha, hr, rfl, hle, fun h9 => ?_⟩
  have h1 : (ResetRace.run flash schedule).restarts = 1 := by
    by_contra hne
    have h0 : (List.foldl ResetRace.step (ResetRace.init flash) schedule).restarts = 0 := by
      have : (ResetRace.run flash schedule).restarts ≤ 1 := hle
      unfold ResetRace.run at hne this
      omega
    have hsum := hn h0
    have b1 := ResetPc.index_le (List.foldl ResetRace.step (ResetRace.init flash) schedule).first
    have b2 := ResetPc.index_le (List.foldl ResetRace.step (ResetRace.init flash) schedule).second
    omega
  exact ⟨h1, hf1 h1⟩

theorem C15_double_reset_restarts_once_witness :
    9 ≤ ResetRace.sampleSchedule.length
      ∧ (ResetRace.run (some NvsEntries.onlyWifi) ResetRace.sampleSchedule).aborted = false
      ∧ (∀ e ∈ (ResetRace.run (some NvsEntries.onlyWifi) ResetRace.sampleSchedule).results,
          e = esp_err_t.ESP_OK)
      ∧ (ResetRace.run (some NvsEntries.onlyWifi) ResetRace.sampleSchedule).restarts = 1
      ∧ (ResetRace.run (some NvsEntries.onlyWifi) ResetRace.sampleSchedule).flash
          = some NvsEntries.empty :=
  ⟨by decide,
    (C15_double_reset_restarts_once (some NvsEntries.onlyWifi) ResetRace.sampleSchedule).1,
    (C15_double_reset_restarts_once (some NvsEntries.onlyWifi) ResetRace.sampleSchedule).2.1,
    ((C15_double_reset_restarts_once (some NvsEntries.onlyWifi)
      ResetRace.sampleSchedule).2.2.2.2 (by decide)).1,
    ((C15_double_reset_restarts_once (some NvsEntries.onlyWifi)
      ResetRace.sampleSchedule).2.2.2.2 (by decide)).2⟩

end SmartHome
